import Mathlib

/-!
# ESP32 Smart LED Controller: shallow embedding of `main.cpp`

The firmware is one cooperative polling loop over process-wide variables.
The embedding keeps every global of `main.cpp` as a field of `State`, adds the
peripheral registers the program writes (three LED duties, the text on the
display) and a trace of the hardware calls in program order.

* `unsigned long` is 32 bits wide on the ESP32: clock readings are reduced
  modulo `2^32` when stored and subtraction wraps (`sub32`).
* Everything the program reads from outside during one pass of `loop()` is a
  field of `Inputs`: the `millis()` readings, the three `digitalRead` levels
  and the number of polls each blocking spin-wait makes before it sees the
  button released.  The environment is assumed to release a held button after
  finitely many polls; a button that is never released makes `loop()` spin
  forever and has no `Inputs` value.
* The float arithmetic of the FADE renderer is a parameter (`FadeMath`) of the
  loop, so that the state machine is executable; `realFade` instantiates it
  with the source's formula read over the real numbers.
-/

namespace LedController

/-! ## Data model -/

/-- Digital level returned by `digitalRead`; the buttons are active-low. -/
inductive Level where
  | LOW
  | HIGH
  deriving DecidableEq, Repr

/-- The enumeration `LightingMode` (main.cpp:55-61).  The fifth enumerator
`TOTAL_MODES` is the count of modes and is never stored in the mode variable;
it is the constant `TOTAL_MODES` below. -/
inductive LightingMode where
  | MODE_OFF
  | MODE_ALTERNATE
  | MODE_ALL_ON
  | MODE_FADE
  deriving DecidableEq, Repr

/-- Enumerator `TOTAL_MODES` (value 4). -/
def TOTAL_MODES : Nat := 4

/-- Integer value of an enumerator. -/
def LightingMode.toNat : LightingMode → Nat
  | .MODE_OFF => 0
  | .MODE_ALTERNATE => 1
  | .MODE_ALL_ON => 2
  | .MODE_FADE => 3

/-- The cast `(LightingMode) n` for `n < TOTAL_MODES`. -/
def LightingMode.ofFin : Fin 4 → LightingMode
  | 0 => .MODE_OFF
  | 1 => .MODE_ALTERNATE
  | 2 => .MODE_ALL_ON
  | 3 => .MODE_FADE

/-- The expression `(LightingMode)((activeLightingMode + 1) % TOTAL_MODES)`
(main.cpp:186). -/
def nextMode (m : LightingMode) : LightingMode :=
  LightingMode.ofFin ⟨(m.toNat + 1) % TOTAL_MODES, Nat.mod_lt _ (by decide)⟩

def BUZZER_PIN : Nat := 27
def MODE_BUTTON_PIN : Nat := 13
def ACTION_BUTTON_PIN : Nat := 12
def BOOT_BUTTON_PIN : Nat := 0
def LED_RED_PIN : Nat := 19
def LED_GREEN_PIN : Nat := 18
def LED_YELLOW_PIN : Nat := 5
def PWM_RESOLUTION_BITS : Nat := 8
def LED_PWM_FREQUENCY : Nat := 5000
def BUZZER_PWM_CHANNEL : Nat := 0
def LED_RED_CHANNEL : Nat := 1
def LED_GREEN_CHANNEL : Nat := 2
def LED_YELLOW_CHANNEL : Nat := 3
def LED_BLINK_INTERVAL : Nat := 400
def BUTTON_DEBOUNCE_DELAY : Nat := 50

/-- Reduction of a clock reading to the 32-bit `unsigned long`. -/
def wrap32 (n : Nat) : Nat := n % 2 ^ 32

/-- Subtraction of two `unsigned long` values: `a - b` modulo `2^32`. -/
def sub32 (a b : Nat) : Nat := (wrap32 a + (2 ^ 32 - wrap32 b)) % 2 ^ 32

/-- Conversion of an `int` argument to the `uint32_t duty` parameter of
`ledcWrite`. -/
def toU32 (v : Int) : Nat := (v % 2 ^ 32).toNat

/-- Calls made to the hardware abstraction, in program order. -/
inductive Event where
  | serialBegin (baud : Nat)
  | pinModeInputPullup (pin : Nat)
  | ledcSetup (channel freq bits : Nat)
  | ledcAttachPin (pin channel : Nat)
  | wireBegin (sda scl : Nat)
  | display (headerText mainMessage : String)
  | ledcWrite (channel duty : Nat)
  | ledcWriteTone (channel freq : Nat)
  | delay (ms : Nat)
  deriving DecidableEq, Repr

/-- The globals of `main.cpp` (lines 63-81), the function-local static
`currentLEDIndex` (line 254), the peripheral registers the program writes and
the trace of hardware calls. -/
structure State where
  activeLightingMode : LightingMode
  ledBlinkTimer : Nat
  isBlinkOn : Bool
  ledFadeTimer : Nat
  buttonPressStartTime : Nat
  isButtonPressed : Bool
  isLongPressHandled : Bool
  lastModeButtonPressTime : Nat
  lastBootButtonPressTime : Nat
  isManualControlEnabled : Bool
  manualLEDState : Bool
  currentLEDIndex : Int
  ledRed : Nat
  ledGreen : Nat
  ledYellow : Nat
  oled : Option (String × String)
  trace : List Event
  deriving DecidableEq, Repr

/-- What one pass of `loop()` reads from its environment. -/
structure Inputs where
  /-- Reading of `millis()` at line 181. -/
  currentMillis : Nat
  /-- Level of `digitalRead(MODE_BUTTON_PIN)` at line 184. -/
  modePin : Level
  /-- Reading of `millis()` inside `updateLightingMode` (lines 116, 129) when
  the mode button handler calls it. -/
  modeEntryMillis : Nat
  /-- Number of LOW reads of the spin-wait at line 188. -/
  modeHoldPolls : Nat
  /-- Reading of `millis()` at line 189. -/
  modeReleaseMillis : Nat
  /-- Level of `digitalRead(BOOT_BUTTON_PIN)` at line 194. -/
  bootPin : Level
  /-- Number of LOW reads of the spin-wait at line 198. -/
  bootHoldPolls : Nat
  /-- Reading of `millis()` at line 199. -/
  bootReleaseMillis : Nat
  /-- Level of `digitalRead(ACTION_BUTTON_PIN)` at line 204. -/
  actionPin : Level
  deriving DecidableEq, Repr

/-- The float part of the FADE renderer (main.cpp:270-277): for each channel
the value of `(int)(xValue * 255)` as a function of `elapsedTime`. -/
structure FadeMath where
  redDuty : Nat → Int
  greenDuty : Nat → Int
  yellowDuty : Nat → Int

/-! ## Hardware calls -/

/-- Call `delay(ms)`. -/
def delay (ms : Nat) (s : State) : State :=
  { s with trace := s.trace ++ [Event.delay ms] }

/-- Call `ledcWrite(channel, duty)`: sets the duty register of an LED channel. -/
def ledcWrite (channel duty : Nat) (s : State) : State :=
  let s := { s with trace := s.trace ++ [Event.ledcWrite channel duty] }
  if channel = LED_RED_CHANNEL then { s with ledRed := duty }
  else if channel = LED_GREEN_CHANNEL then { s with ledGreen := duty }
  else if channel = LED_YELLOW_CHANNEL then { s with ledYellow := duty }
  else s

/-- Call `ledcWriteTone(channel, freq)`. -/
def ledcWriteTone (channel freq : Nat) (s : State) : State :=
  { s with trace := s.trace ++ [Event.ledcWriteTone channel freq] }

/-- Function `displayOLEDMessage` (main.cpp:86-97): clears the display and
renders the header line and the main line. -/
def displayOLEDMessage (headerText mainMessage : String) (s : State) : State :=
  { s with oled := some (headerText, mainMessage),
           trace := s.trace ++ [Event.display headerText mainMessage] }

/-! ## Program -/

/-- Function `updateLightingMode` (main.cpp:102-132).  `now` is the reading
`millis()` returns in the ALTERNATE and FADE cases. -/
def updateLightingMode (newMode : LightingMode) (now : Nat) (s : State) : State :=
  let s := { s with activeLightingMode := newMode, isManualControlEnabled := false }
  match newMode with
  | .MODE_OFF =>
    s |> displayOLEDMessage "Mode:" "All OFF"
      |> ledcWrite LED_RED_CHANNEL 0
      |> ledcWrite LED_GREEN_CHANNEL 0
      |> ledcWrite LED_YELLOW_CHANNEL 0
  | .MODE_ALTERNATE =>
    let s := displayOLEDMessage "Mode:" "Alternate" s
    { s with ledBlinkTimer := wrap32 now, isBlinkOn := false }
  | .MODE_ALL_ON =>
    s |> displayOLEDMessage "Mode:" "All ON"
      |> ledcWrite LED_RED_CHANNEL 255
      |> ledcWrite LED_GREEN_CHANNEL 255
      |> ledcWrite LED_YELLOW_CHANNEL 255
  | .MODE_FADE =>
    let s := displayOLEDMessage "Mode:" "PWM Fade" s
    { s with ledFadeTimer := wrap32 now }

/-- Function `playBuzzerTone` (main.cpp:137-141). -/
def playBuzzerTone (toneFrequency toneDuration : Nat) (s : State) : State :=
  s |> ledcWriteTone BUZZER_PWM_CHANNEL toneFrequency
    |> delay toneDuration
    |> ledcWriteTone BUZZER_PWM_CHANNEL 0

/-- The globals as initialised at power-on (main.cpp:63-81, 254); the duty
registers are 0 and the display is blank. -/
def powerOn : State :=
  { activeLightingMode := .MODE_OFF
    ledBlinkTimer := 0
    isBlinkOn := false
    ledFadeTimer := 0
    buttonPressStartTime := 0
    isButtonPressed := false
    isLongPressHandled := false
    lastModeButtonPressTime := 0
    lastBootButtonPressTime := 0
    isManualControlEnabled := false
    manualLEDState := false
    currentLEDIndex := 0
    ledRed := 0
    ledGreen := 0
    ledYellow := 0
    oled := none
    trace := [] }

/-- Append hardware calls to the trace. -/
def emit (es : List Event) (s : State) : State :=
  { s with trace := s.trace ++ es }

/-- State in which `setup` returns (main.cpp:147-174): pins and PWM channels
configured, then "System:"/"Ready" rendered, then `updateLightingMode(MODE_OFF)`. -/
def setupDone : State :=
  powerOn
    |> emit
      [ Event.serialBegin 115200,
        Event.pinModeInputPullup MODE_BUTTON_PIN,
        Event.pinModeInputPullup ACTION_BUTTON_PIN,
        Event.pinModeInputPullup BOOT_BUTTON_PIN,
        Event.ledcSetup BUZZER_PWM_CHANNEL 2000 PWM_RESOLUTION_BITS,
        Event.ledcAttachPin BUZZER_PIN BUZZER_PWM_CHANNEL,
        Event.ledcSetup LED_RED_CHANNEL LED_PWM_FREQUENCY PWM_RESOLUTION_BITS,
        Event.ledcAttachPin LED_RED_PIN LED_RED_CHANNEL,
        Event.ledcSetup LED_GREEN_CHANNEL LED_PWM_FREQUENCY PWM_RESOLUTION_BITS,
        Event.ledcAttachPin LED_GREEN_PIN LED_GREEN_CHANNEL,
        Event.ledcSetup LED_YELLOW_CHANNEL LED_PWM_FREQUENCY PWM_RESOLUTION_BITS,
        Event.ledcAttachPin LED_YELLOW_PIN LED_YELLOW_CHANNEL,
        Event.wireBegin 21 22 ]
    |> displayOLEDMessage "System:" "Ready"
    |> updateLightingMode .MODE_OFF 0

/-- Function `setup` (main.cpp:146-175).  `oledOk` is the result of
`oledDisplay.begin`; when it is false the function never returns
(`while (true) delay(100)`), which is `none`. -/
def setup (oledOk : Bool) : Option State :=
  if oledOk = false then none else some setupDone

/-- The spin-wait `while (digitalRead(pin) == LOW) delay(10);` for a button
that reads LOW `polls` more times. -/
def spinWait : Nat → State → State
  | 0, s => s
  | polls + 1, s => spinWait polls (delay 10 s)

/-- Section "MODE BUTTON" of `loop` (main.cpp:184-191). -/
def loopModeButton (currentMillis : Nat) (i : Inputs) (s : State) : State :=
  if i.modePin = Level.LOW then
    if sub32 currentMillis s.lastModeButtonPressTime > BUTTON_DEBOUNCE_DELAY then
      let s := { s with activeLightingMode := nextMode s.activeLightingMode }
      let s := updateLightingMode s.activeLightingMode i.modeEntryMillis s
      let s := spinWait i.modeHoldPolls s
      { s with lastModeButtonPressTime := wrap32 i.modeReleaseMillis }
    else s
  else s

/-- Section "BOOT BUTTON" of `loop` (main.cpp:194-201). -/
def loopBootButton (currentMillis : Nat) (i : Inputs) (s : State) : State :=
  if i.bootPin = Level.LOW then
    if sub32 currentMillis s.lastBootButtonPressTime > BUTTON_DEBOUNCE_DELAY then
      let s := updateLightingMode .MODE_OFF 0 s
      let s := displayOLEDMessage "System:" "Reset (BOOT)" s
      let s := spinWait i.bootHoldPolls s
      { s with lastBootButtonPressTime := wrap32 i.bootReleaseMillis }
    else s
  else s

/-- Section "Detect initial press" of `loop` (main.cpp:207-211). -/
def actionDetectPress (currentMillis : Nat) (actionButtonState : Level) (s : State) : State :=
  if actionButtonState = Level.LOW ∧ s.isButtonPressed = false then
    { s with isButtonPressed := true,
             buttonPressStartTime := currentMillis,
             isLongPressHandled := false }
  else s

/-- Section "Handle long press (buzzer)" of `loop` (main.cpp:214-220). -/
def actionLongPress (currentMillis : Nat) (actionButtonState : Level) (s : State) : State :=
  if actionButtonState = Level.LOW ∧ s.isButtonPressed = true ∧ s.isLongPressHandled = false then
    if sub32 currentMillis s.buttonPressStartTime ≥ 1500 then
      let s := displayOLEDMessage "Action:" "Long Press" s
      let s := playBuzzerTone 2500 300 s
      { s with isLongPressHandled := true }
    else s
  else s

/-- Section "Handle release" of `loop` (main.cpp:223-244). -/
def actionRelease (currentMillis : Nat) (actionButtonState : Level) (s : State) : State :=
  if actionButtonState = Level.HIGH ∧ s.isButtonPressed = true then
    let pressDuration := sub32 currentMillis s.buttonPressStartTime
    let s := { s with isButtonPressed := false }
    if s.isLongPressHandled = false ∧ pressDuration < 1500 then
      let s := { s with isManualControlEnabled := true, manualLEDState := !s.manualLEDState }
      if s.manualLEDState = true then
        s |> ledcWrite LED_RED_CHANNEL 255
          |> ledcWrite LED_GREEN_CHANNEL 255
          |> ledcWrite LED_YELLOW_CHANNEL 255
          |> displayOLEDMessage "Action:" "Short: ON"
      else
        s |> ledcWrite LED_RED_CHANNEL 0
          |> ledcWrite LED_GREEN_CHANNEL 0
          |> ledcWrite LED_YELLOW_CHANNEL 0
          |> displayOLEDMessage "Action:" "Short: OFF"
    else s
  else s

/-- Section "ACTION BUTTON" of `loop` (main.cpp:204-244). -/
def loopActionButton (currentMillis : Nat) (i : Inputs) (s : State) : State :=
  let actionButtonState := i.actionPin
  s |> actionDetectPress currentMillis actionButtonState
    |> actionLongPress currentMillis actionButtonState
    |> actionRelease currentMillis actionButtonState

/-- Section "LED MODE BEHAVIOR" of `loop` (main.cpp:247-284), the mode
renderer.  `currentLEDIndex` is a C `int`; `%` on it truncates (`Int.tmod`). -/
def loopLedModeBehavior (fm : FadeMath) (currentMillis : Nat) (s : State) : State :=
  if s.isManualControlEnabled = false then
    match s.activeLightingMode with
    | .MODE_ALTERNATE =>
      if sub32 currentMillis s.ledBlinkTimer ≥ LED_BLINK_INTERVAL then
        let s := { s with ledBlinkTimer := currentMillis, isBlinkOn := !s.isBlinkOn }
        if s.isBlinkOn = true then
          let s := { s with currentLEDIndex := Int.tmod (s.currentLEDIndex + 1) 3 }
          s |> ledcWrite LED_RED_CHANNEL (if s.currentLEDIndex = 0 then 255 else 0)
            |> ledcWrite LED_GREEN_CHANNEL (if s.currentLEDIndex = 1 then 255 else 0)
            |> ledcWrite LED_YELLOW_CHANNEL (if s.currentLEDIndex = 2 then 255 else 0)
        else
          s |> ledcWrite LED_RED_CHANNEL 0
            |> ledcWrite LED_GREEN_CHANNEL 0
            |> ledcWrite LED_YELLOW_CHANNEL 0
      else s
    | .MODE_FADE =>
      let elapsedTime := sub32 currentMillis s.ledFadeTimer % 2000
      s |> ledcWrite LED_RED_CHANNEL (toU32 (fm.redDuty elapsedTime))
        |> ledcWrite LED_GREEN_CHANNEL (toU32 (fm.greenDuty elapsedTime))
        |> ledcWrite LED_YELLOW_CHANNEL (toU32 (fm.yellowDuty elapsedTime))
    | _ => s
  else s

/-- State of one pass of `loop` just before the mode renderer runs
(main.cpp:181-244). -/
def preRender (s : State) (i : Inputs) : State :=
  let currentMillis := wrap32 i.currentMillis
  s |> loopModeButton currentMillis i
    |> loopBootButton currentMillis i
    |> loopActionButton currentMillis i

/-- Function `loop` (main.cpp:180-287): one pass. -/
def loop (fm : FadeMath) (s : State) (i : Inputs) : State :=
  let currentMillis := wrap32 i.currentMillis
  preRender s i
    |> loopLedModeBehavior fm currentMillis
    |> delay 8

/-- Consecutive passes of `loop`, one per element of the input list. -/
def run (fm : FadeMath) (s : State) (inputs : List Inputs) : State :=
  inputs.foldl (loop fm) s

/-- States the firmware can be in between two passes of `loop`: the state
`setup` returns and every state a pass of `loop` produces from such a state. -/
inductive Reachable (fm : FadeMath) : State → Prop where
  | boot (s : State) (h : setup true = some s) : Reachable fm s
  | step (s : State) (i : Inputs) (h : Reachable fm s) : Reachable fm (loop fm s i)


/-! ## The float arithmetic of the FADE renderer over the reals -/

/-- The cast `(int) x`: truncation toward zero. -/
noncomputable def truncToInt (x : ℝ) : ℤ := if 0 ≤ x then ⌊x⌋ else ⌈x⌉

/-- The expressions of main.cpp:270-277 with `sin`, `PI` and the float
operations read as exact real arithmetic; `timeFraction` is
`elapsedTime / 2000`. -/
noncomputable def realFade : FadeMath where
  redDuty elapsedTime :=
    truncToInt ((Real.sin (2 * Real.pi * ((elapsedTime : ℝ) / 2000)) + 1) / 2 * 255)
  greenDuty elapsedTime :=
    truncToInt ((Real.sin (2 * Real.pi * ((elapsedTime : ℝ) / 2000 + 1 / 3)) + 1) / 2 * 255)
  yellowDuty elapsedTime :=
    truncToInt ((Real.sin (2 * Real.pi * ((elapsedTime : ℝ) / 2000 + 2 / 3)) + 1) / 2 * 255)

/-! ## Vocabulary of the properties -/

/-- Main line rendered by `updateLightingMode` for each mode (main.cpp:108,
115, 121, 128). -/
def modeLabel : LightingMode → String
  | .MODE_OFF => "All OFF"
  | .MODE_ALTERNATE => "Alternate"
  | .MODE_ALL_ON => "All ON"
  | .MODE_FADE => "PWM Fade"

/-- Hardware calls made by `updateLightingMode` for each mode. -/
def modeEntryEvents : LightingMode → List Event
  | .MODE_OFF =>
    [Event.display "Mode:" "All OFF", Event.ledcWrite LED_RED_CHANNEL 0,
      Event.ledcWrite LED_GREEN_CHANNEL 0, Event.ledcWrite LED_YELLOW_CHANNEL 0]
  | .MODE_ALTERNATE => [Event.display "Mode:" "Alternate"]
  | .MODE_ALL_ON =>
    [Event.display "Mode:" "All ON", Event.ledcWrite LED_RED_CHANNEL 255,
      Event.ledcWrite LED_GREEN_CHANNEL 255, Event.ledcWrite LED_YELLOW_CHANNEL 255]
  | .MODE_FADE => [Event.display "Mode:" "PWM Fade"]

/-- Hardware calls of the long-press action (main.cpp:216-217). -/
def longPressEvents : List Event :=
  [Event.display "Action:" "Long Press", Event.ledcWriteTone BUZZER_PWM_CHANNEL 2500,
    Event.delay 300, Event.ledcWriteTone BUZZER_PWM_CHANNEL 0]

/-- Hardware calls of the short-press toggle (main.cpp:232-242) for the new
manual level. -/
def shortPressEvents (level : Bool) : List Event :=
  if level = true then
    [Event.ledcWrite LED_RED_CHANNEL 255, Event.ledcWrite LED_GREEN_CHANNEL 255,
      Event.ledcWrite LED_YELLOW_CHANNEL 255, Event.display "Action:" "Short: ON"]
  else
    [Event.ledcWrite LED_RED_CHANNEL 0, Event.ledcWrite LED_GREEN_CHANNEL 0,
      Event.ledcWrite LED_YELLOW_CHANNEL 0, Event.display "Action:" "Short: OFF"]

/-- Duty the ALTERNATE renderer writes to LED channel `k` (0 red, 1 green,
2 yellow) when it toggles the blink flag, from the flag and index before the
toggle (main.cpp:255-264). -/
def blinkDuty (k : Int) (s : State) : Nat :=
  if s.isBlinkOn = false ∧ Int.tmod (s.currentLEDIndex + 1) 3 = k then 255 else 0

/-- A mode-button press is accepted in the pass: the guards of main.cpp:184-185
on the state at the start of the pass. -/
def modePressAccepted (s : State) (i : Inputs) : Prop :=
  i.modePin = Level.LOW ∧
    sub32 (wrap32 i.currentMillis) s.lastModeButtonPressTime > BUTTON_DEBOUNCE_DELAY

/-- A boot-button press is accepted in the pass: the guards of main.cpp:194-195.
The mode-button handler does not write `lastBootButtonPressTime`, so the guard
is read on the state at the start of the pass. -/
def bootPressAccepted (s : State) (i : Inputs) : Prop :=
  i.bootPin = Level.LOW ∧
    sub32 (wrap32 i.currentMillis) s.lastBootButtonPressTime > BUTTON_DEBOUNCE_DELAY

/-- The pass performs the short-press toggle: the guards of main.cpp:223 and
228.  The mode and boot handlers do not write the variables read here. -/
def shortPressReleased (s : State) (i : Inputs) : Prop :=
  i.actionPin = Level.HIGH ∧ s.isButtonPressed = true ∧ s.isLongPressHandled = false ∧
    sub32 (wrap32 i.currentMillis) s.buttonPressStartTime < 1500

instance (s : State) (i : Inputs) : Decidable (modePressAccepted s i) := by
  unfold modePressAccepted; infer_instance

instance (s : State) (i : Inputs) : Decidable (bootPressAccepted s i) := by
  unfold bootPressAccepted; infer_instance

instance (s : State) (i : Inputs) : Decidable (shortPressReleased s i) := by
  unfold shortPressReleased; infer_instance

/-- Inputs of a pass that starts at clock reading `t` with all three buttons
released; every `millis()` reading of the pass is `t`. -/
def idleAt (t : Nat) : Inputs :=
  { currentMillis := t
    modePin := .HIGH
    modeEntryMillis := t
    modeHoldPolls := 0
    modeReleaseMillis := t
    bootPin := .HIGH
    bootHoldPolls := 0
    bootReleaseMillis := t
    actionPin := .HIGH }

/-- Number of times the buzzer is started at 2500 Hz in a trace. -/
def toneCount (t : List Event) : Nat :=
  t.count (Event.ledcWriteTone BUZZER_PWM_CHANNEL 2500)

/-- Number of times "Action:"/"Long Press" is rendered in a trace. -/
def longPressTextCount (t : List Event) : Nat :=
  t.count (Event.display "Action:" "Long Press")

/-- Inputs of a pass that starts at clock reading `t` and accepts nothing but a
mode-button press: `millis()` reads `t + 20` inside `updateLightingMode` and
`t + 50` after the release, which the first poll of the spin-wait sees. -/
def modePressAt (t : Nat) : Inputs :=
  { idleAt t with modePin := .LOW, modeEntryMillis := t + 20, modeReleaseMillis := t + 50 }

/-- Inputs of a pass that starts at clock reading `t` with only the action
button held down. -/
def actionHeldAt (t : Nat) : Inputs :=
  { idleAt t with actionPin := .LOW }

/-- The renderer toggles the blink flag in the pass: the guards of
main.cpp:247-251 on the state the button handlers leave. -/
def blinkToggles (s : State) (i : Inputs) : Prop :=
  (preRender s i).isManualControlEnabled = false
    ∧ (preRender s i).activeLightingMode = .MODE_ALTERNATE
    ∧ sub32 (wrap32 i.currentMillis) (preRender s i).ledBlinkTimer ≥ LED_BLINK_INTERVAL

instance (s : State) (i : Inputs) : Decidable (blinkToggles s i) := by
  unfold blinkToggles; infer_instance

/-- LED channel `k` (0 red, 1 green, 2 yellow) is the only lit one. -/
def onlyLit (k : Int) (s : State) : Prop :=
  s.ledRed = (if k = 0 then 255 else 0) ∧ s.ledGreen = (if k = 1 then 255 else 0)
    ∧ s.ledYellow = (if k = 2 then 255 else 0)

/-- Invariant of the ALTERNATE renderer: the index is 0, 1 or 2, and in
ALTERNATE mode with override disabled and the blink flag on the LED channel
with that index is the only lit one. -/
def AlternateInv (s : State) : Prop :=
  (0 ≤ s.currentLEDIndex ∧ s.currentLEDIndex < 3)
    ∧ (s.activeLightingMode = .MODE_ALTERNATE → s.isManualControlEnabled = false →
        s.isBlinkOn = true → onlyLit s.currentLEDIndex s)

/-- Invariant of manual override: while it is enabled the three LED duties
equal the manual level, 255 when `manualLEDState` is true and 0 when false. -/
def ManualInv (s : State) : Prop :=
  s.isManualControlEnabled = true →
    s.ledRed = (if s.manualLEDState = true then 255 else 0)
      ∧ s.ledGreen = (if s.manualLEDState = true then 255 else 0)
      ∧ s.ledYellow = (if s.manualLEDState = true then 255 else 0)

/-- The texts rendered on the display, in order: header line and main line of
each `displayOLEDMessage` call of a trace. -/
def renders : List Event → List (String × String)
  | [] => []
  | Event.display headerText mainMessage :: t => (headerText, mainMessage) :: renders t
  | Event.serialBegin _ :: t => renders t
  | Event.pinModeInputPullup _ :: t => renders t
  | Event.ledcSetup _ _ _ :: t => renders t
  | Event.ledcAttachPin _ _ :: t => renders t
  | Event.wireBegin _ _ :: t => renders t
  | Event.ledcWrite _ _ :: t => renders t
  | Event.ledcWriteTone _ _ :: t => renders t
  | Event.delay _ :: t => renders t

/-- Inputs of a pass that starts at clock reading `t` and accepts nothing but a
boot-button press, released at the first poll, with `millis()` reading `t + 50`
after the release. -/
def bootPressAt (t : Nat) : Inputs :=
  { idleAt t with bootPin := .LOW, bootReleaseMillis := t + 50 }

/-- The LED writes of a trace, in order: channel and duty of each `ledcWrite`
call. -/
def ledWrites : List Event → List (Nat × Nat)
  | [] => []
  | Event.ledcWrite channel duty :: t => (channel, duty) :: ledWrites t
  | Event.serialBegin _ :: t => ledWrites t
  | Event.pinModeInputPullup _ :: t => ledWrites t
  | Event.ledcSetup _ _ _ :: t => ledWrites t
  | Event.ledcAttachPin _ _ :: t => ledWrites t
  | Event.wireBegin _ _ :: t => ledWrites t
  | Event.display _ _ :: t => ledWrites t
  | Event.ledcWriteTone _ _ :: t => ledWrites t
  | Event.delay _ :: t => ledWrites t

/-- Invariant of the static modes: with override disabled the three duties
are 0 in OFF and 255 in ALL_ON. -/
def StaticInv (s : State) : Prop :=
  (s.activeLightingMode = .MODE_OFF → s.isManualControlEnabled = false →
      s.ledRed = 0 ∧ s.ledGreen = 0 ∧ s.ledYellow = 0)
    ∧ (s.activeLightingMode = .MODE_ALL_ON → s.isManualControlEnabled = false →
      s.ledRed = 255 ∧ s.ledGreen = 255 ∧ s.ledYellow = 255)

/-- State of a pass inside the mode-button handler after an accepted press:
lines 186-187 of `main.cpp` executed (mode advanced, `updateLightingMode`
called) and the spin-wait of line 188 has made `k` polls that read LOW. -/
def modeHoldState (s : State) (i : Inputs) (k : Nat) : State :=
  let s := { s with activeLightingMode := nextMode s.activeLightingMode }
  let s := updateLightingMode s.activeLightingMode i.modeEntryMillis s
  spinWait k s

/-- Inputs of a pass that starts at clock reading `t` and accepts a mode-button
press held for `polls` polls of the spin-wait: `millis()` reads `t + 20` inside
`updateLightingMode` and `t + 30 + 10 * polls` after the release; the boot and
action buttons are released. -/
def modeHeldAt (t polls : Nat) : Inputs :=
  { idleAt t with
    modePin := .LOW
    modeEntryMillis := t + 20
    modeHoldPolls := polls
    modeReleaseMillis := t + 30 + 10 * polls }

/-! # Proofs -/

/-! ## Normal forms of the program sections -/

theorem sub32_self (a : Nat) : sub32 a a = 0 := by
  unfold sub32 wrap32
  have h : a % 2 ^ 32 < 2 ^ 32 := Nat.mod_lt _ (by norm_num)
  omega

theorem spinWait_eq (n : Nat) (s : State) :
    spinWait n s = { s with trace := s.trace ++ List.replicate n (Event.delay 10) } := by
  induction n generalizing s with
  | zero => simp [spinWait]
  | succ n ih =>
    simp [spinWait, ih, delay, List.replicate_succ]

theorem updateLightingMode_eq (m : LightingMode) (now : Nat) (s : State) :
    updateLightingMode m now s =
      { s with
        activeLightingMode := m
        isManualControlEnabled := false
        ledBlinkTimer := if m = .MODE_ALTERNATE then wrap32 now else s.ledBlinkTimer
        isBlinkOn := if m = .MODE_ALTERNATE then false else s.isBlinkOn
        ledFadeTimer := if m = .MODE_FADE then wrap32 now else s.ledFadeTimer
        ledRed := if m = .MODE_OFF then 0 else if m = .MODE_ALL_ON then 255 else s.ledRed
        ledGreen := if m = .MODE_OFF then 0 else if m = .MODE_ALL_ON then 255 else s.ledGreen
        ledYellow := if m = .MODE_OFF then 0 else if m = .MODE_ALL_ON then 255 else s.ledYellow
        oled := some ("Mode:", modeLabel m)
        trace := s.trace ++ modeEntryEvents m } := by
  cases m <;>
    simp [updateLightingMode, displayOLEDMessage, ledcWrite, modeLabel, modeEntryEvents,
      LED_RED_CHANNEL, LED_GREEN_CHANNEL, LED_YELLOW_CHANNEL]

theorem loopModeButton_eq (cm : Nat) (i : Inputs) (s : State) :
    loopModeButton cm i s =
      { s with
        activeLightingMode :=
          if i.modePin = .LOW ∧ sub32 cm s.lastModeButtonPressTime > BUTTON_DEBOUNCE_DELAY
          then nextMode s.activeLightingMode else s.activeLightingMode
        isManualControlEnabled :=
          if i.modePin = .LOW ∧ sub32 cm s.lastModeButtonPressTime > BUTTON_DEBOUNCE_DELAY
          then false else s.isManualControlEnabled
        ledBlinkTimer :=
          if (i.modePin = .LOW ∧ sub32 cm s.lastModeButtonPressTime > BUTTON_DEBOUNCE_DELAY)
              ∧ nextMode s.activeLightingMode = .MODE_ALTERNATE
          then wrap32 i.modeEntryMillis else s.ledBlinkTimer
        isBlinkOn :=
          if (i.modePin = .LOW ∧ sub32 cm s.lastModeButtonPressTime > BUTTON_DEBOUNCE_DELAY)
              ∧ nextMode s.activeLightingMode = .MODE_ALTERNATE
          then false else s.isBlinkOn
        ledFadeTimer :=
          if (i.modePin = .LOW ∧ sub32 cm s.lastModeButtonPressTime > BUTTON_DEBOUNCE_DELAY)
              ∧ nextMode s.activeLightingMode = .MODE_FADE
          then wrap32 i.modeEntryMillis else s.ledFadeTimer
        ledRed :=
          if i.modePin = .LOW ∧ sub32 cm s.lastModeButtonPressTime > BUTTON_DEBOUNCE_DELAY then
            (if nextMode s.activeLightingMode = .MODE_OFF then 0
             else if nextMode s.activeLightingMode = .MODE_ALL_ON then 255 else s.ledRed)
          else s.ledRed
        ledGreen :=
          if i.modePin = .LOW ∧ sub32 cm s.lastModeButtonPressTime > BUTTON_DEBOUNCE_DELAY then
            (if nextMode s.activeLightingMode = .MODE_OFF then 0
             else if nextMode s.activeLightingMode = .MODE_ALL_ON then 255 else s.ledGreen)
          else s.ledGreen
        ledYellow :=
          if i.modePin = .LOW ∧ sub32 cm s.lastModeButtonPressTime > BUTTON_DEBOUNCE_DELAY then
            (if nextMode s.activeLightingMode = .MODE_OFF then 0
             else if nextMode s.activeLightingMode = .MODE_ALL_ON then 255 else s.ledYellow)
          else s.ledYellow
        oled :=
          if i.modePin = .LOW ∧ sub32 cm s.lastModeButtonPressTime > BUTTON_DEBOUNCE_DELAY
          then some ("Mode:", modeLabel (nextMode s.activeLightingMode)) else s.oled
        lastModeButtonPressTime :=
          if i.modePin = .LOW ∧ sub32 cm s.lastModeButtonPressTime > BUTTON_DEBOUNCE_DELAY
          then wrap32 i.modeReleaseMillis else s.lastModeButtonPressTime
        trace :=
          if i.modePin = .LOW ∧ sub32 cm s.lastModeButtonPressTime > BUTTON_DEBOUNCE_DELAY
          then s.trace ++ modeEntryEvents (nextMode s.activeLightingMode)
                ++ List.replicate i.modeHoldPolls (Event.delay 10)
          else s.trace } := by
  unfold loopModeButton
  by_cases hp : i.modePin = .LOW
  · by_cases hd : sub32 cm s.lastModeButtonPressTime > BUTTON_DEBOUNCE_DELAY
    · simp only [hp, hd, if_true, and_self, true_and, spinWait_eq, updateLightingMode_eq]
    · simp only [hp, hd, if_true, if_false, and_false, false_and]
  · simp only [hp, if_false, false_and]


theorem loopBootButton_eq (cm : Nat) (i : Inputs) (s : State) :
    loopBootButton cm i s =
      { s with
        activeLightingMode :=
          if i.bootPin = .LOW ∧ sub32 cm s.lastBootButtonPressTime > BUTTON_DEBOUNCE_DELAY
          then .MODE_OFF else s.activeLightingMode
        isManualControlEnabled :=
          if i.bootPin = .LOW ∧ sub32 cm s.lastBootButtonPressTime > BUTTON_DEBOUNCE_DELAY
          then false else s.isManualControlEnabled
        ledRed :=
          if i.bootPin = .LOW ∧ sub32 cm s.lastBootButtonPressTime > BUTTON_DEBOUNCE_DELAY
          then 0 else s.ledRed
        ledGreen :=
          if i.bootPin = .LOW ∧ sub32 cm s.lastBootButtonPressTime > BUTTON_DEBOUNCE_DELAY
          then 0 else s.ledGreen
        ledYellow :=
          if i.bootPin = .LOW ∧ sub32 cm s.lastBootButtonPressTime > BUTTON_DEBOUNCE_DELAY
          then 0 else s.ledYellow
        oled :=
          if i.bootPin = .LOW ∧ sub32 cm s.lastBootButtonPressTime > BUTTON_DEBOUNCE_DELAY
          then some ("System:", "Reset (BOOT)") else s.oled
        lastBootButtonPressTime :=
          if i.bootPin = .LOW ∧ sub32 cm s.lastBootButtonPressTime > BUTTON_DEBOUNCE_DELAY
          then wrap32 i.bootReleaseMillis else s.lastBootButtonPressTime
        trace :=
          if i.bootPin = .LOW ∧ sub32 cm s.lastBootButtonPressTime > BUTTON_DEBOUNCE_DELAY
          then s.trace ++ modeEntryEvents .MODE_OFF ++ [Event.display "System:" "Reset (BOOT)"]
                ++ List.replicate i.bootHoldPolls (Event.delay 10)
          else s.trace } := by
  unfold loopBootButton
  by_cases hp : i.bootPin = .LOW
  · by_cases hd : sub32 cm s.lastBootButtonPressTime > BUTTON_DEBOUNCE_DELAY
    · simp [hp, hd, spinWait_eq, updateLightingMode_eq, displayOLEDMessage]
    · simp only [hp, hd, if_true, if_false, and_false, false_and]
  · simp only [hp, if_false, false_and]

theorem loopActionButton_eq (cm : Nat) (i : Inputs) (s : State) :
    loopActionButton cm i s =
      { s with
        isButtonPressed := if i.actionPin = .LOW then true else false
        buttonPressStartTime :=
          if i.actionPin = .LOW ∧ s.isButtonPressed = false then cm else s.buttonPressStartTime
        isLongPressHandled :=
          if i.actionPin = .LOW ∧ s.isButtonPressed = false then false
          else if i.actionPin = .LOW ∧ s.isLongPressHandled = false
                ∧ sub32 cm s.buttonPressStartTime ≥ 1500 then true
          else s.isLongPressHandled
        isManualControlEnabled :=
          if i.actionPin = .HIGH ∧ s.isButtonPressed = true ∧ s.isLongPressHandled = false
              ∧ sub32 cm s.buttonPressStartTime < 1500
          then true else s.isManualControlEnabled
        manualLEDState :=
          if i.actionPin = .HIGH ∧ s.isButtonPressed = true ∧ s.isLongPressHandled = false
              ∧ sub32 cm s.buttonPressStartTime < 1500
          then !s.manualLEDState else s.manualLEDState
        ledRed :=
          if i.actionPin = .HIGH ∧ s.isButtonPressed = true ∧ s.isLongPressHandled = false
              ∧ sub32 cm s.buttonPressStartTime < 1500
          then (if s.manualLEDState = false then 255 else 0) else s.ledRed
        ledGreen :=
          if i.actionPin = .HIGH ∧ s.isButtonPressed = true ∧ s.isLongPressHandled = false
              ∧ sub32 cm s.buttonPressStartTime < 1500
          then (if s.manualLEDState = false then 255 else 0) else s.ledGreen
        ledYellow :=
          if i.actionPin = .HIGH ∧ s.isButtonPressed = true ∧ s.isLongPressHandled = false
              ∧ sub32 cm s.buttonPressStartTime < 1500
          then (if s.manualLEDState = false then 255 else 0) else s.ledYellow
        oled :=
          if i.actionPin = .LOW ∧ s.isButtonPressed = true ∧ s.isLongPressHandled = false
              ∧ sub32 cm s.buttonPressStartTime ≥ 1500
          then some ("Action:", "Long Press")
          else if i.actionPin = .HIGH ∧ s.isButtonPressed = true ∧ s.isLongPressHandled = false
              ∧ sub32 cm s.buttonPressStartTime < 1500
          then some ("Action:", if s.manualLEDState = false then "Short: ON" else "Short: OFF")
          else s.oled
        trace :=
          if i.actionPin = .LOW ∧ s.isButtonPressed = true ∧ s.isLongPressHandled = false
              ∧ sub32 cm s.buttonPressStartTime ≥ 1500
          then s.trace ++ longPressEvents
          else if i.actionPin = .HIGH ∧ s.isButtonPressed = true ∧ s.isLongPressHandled = false
              ∧ sub32 cm s.buttonPressStartTime < 1500
          then s.trace ++ shortPressEvents (!s.manualLEDState)
          else s.trace } := by
  obtain ⟨m, bt, bo, ft, st, pr, lh, lm, lb, mc, ml, ix, r, g, y, o, tr⟩ := s
  have h0 : ¬ (1500 ≤ sub32 cm cm) := by rw [sub32_self]; decide
  unfold loopActionButton actionDetectPress actionLongPress actionRelease
  rcases Nat.lt_or_ge (sub32 cm st) 1500 with hd | hd
  · have hd2 : ¬ (1500 ≤ sub32 cm st) := by omega
    cases hpin : i.actionPin <;> cases pr <;> cases lh <;> cases ml <;>
      simp [hd, hd2, h0, playBuzzerTone, displayOLEDMessage, ledcWrite, ledcWriteTone, delay,
        longPressEvents, shortPressEvents, LED_RED_CHANNEL, LED_GREEN_CHANNEL, LED_YELLOW_CHANNEL]
  · have hd2 : ¬ (sub32 cm st < 1500) := by omega
    cases hpin : i.actionPin <;> cases pr <;> cases lh <;> cases ml <;>
      simp [hd, hd2, h0, playBuzzerTone, displayOLEDMessage, ledcWrite, ledcWriteTone, delay,
        longPressEvents, shortPressEvents, LED_RED_CHANNEL, LED_GREEN_CHANNEL, LED_YELLOW_CHANNEL]

theorem loopLedModeBehavior_eq (fm : FadeMath) (cm : Nat) (s : State) :
    loopLedModeBehavior fm cm s =
      { s with
        ledBlinkTimer :=
          if s.isManualControlEnabled = false ∧ s.activeLightingMode = .MODE_ALTERNATE
              ∧ sub32 cm s.ledBlinkTimer ≥ LED_BLINK_INTERVAL
          then cm else s.ledBlinkTimer
        isBlinkOn :=
          if s.isManualControlEnabled = false ∧ s.activeLightingMode = .MODE_ALTERNATE
              ∧ sub32 cm s.ledBlinkTimer ≥ LED_BLINK_INTERVAL
          then !s.isBlinkOn else s.isBlinkOn
        currentLEDIndex :=
          if (s.isManualControlEnabled = false ∧ s.activeLightingMode = .MODE_ALTERNATE
              ∧ sub32 cm s.ledBlinkTimer ≥ LED_BLINK_INTERVAL) ∧ s.isBlinkOn = false
          then Int.tmod (s.currentLEDIndex + 1) 3 else s.currentLEDIndex
        ledRed :=
          if s.isManualControlEnabled = false ∧ s.activeLightingMode = .MODE_ALTERNATE
              ∧ sub32 cm s.ledBlinkTimer ≥ LED_BLINK_INTERVAL
          then blinkDuty 0 s
          else if s.isManualControlEnabled = false ∧ s.activeLightingMode = .MODE_FADE
          then toU32 (fm.redDuty (sub32 cm s.ledFadeTimer % 2000)) else s.ledRed
        ledGreen :=
          if s.isManualControlEnabled = false ∧ s.activeLightingMode = .MODE_ALTERNATE
              ∧ sub32 cm s.ledBlinkTimer ≥ LED_BLINK_INTERVAL
          then blinkDuty 1 s
          else if s.isManualControlEnabled = false ∧ s.activeLightingMode = .MODE_FADE
          then toU32 (fm.greenDuty (sub32 cm s.ledFadeTimer % 2000)) else s.ledGreen
        ledYellow :=
          if s.isManualControlEnabled = false ∧ s.activeLightingMode = .MODE_ALTERNATE
              ∧ sub32 cm s.ledBlinkTimer ≥ LED_BLINK_INTERVAL
          then blinkDuty 2 s
          else if s.isManualControlEnabled = false ∧ s.activeLightingMode = .MODE_FADE
          then toU32 (fm.yellowDuty (sub32 cm s.ledFadeTimer % 2000)) else s.ledYellow
        trace :=
          if s.isManualControlEnabled = false ∧ s.activeLightingMode = .MODE_ALTERNATE
              ∧ sub32 cm s.ledBlinkTimer ≥ LED_BLINK_INTERVAL
          then s.trace ++ [Event.ledcWrite LED_RED_CHANNEL (blinkDuty 0 s),
                Event.ledcWrite LED_GREEN_CHANNEL (blinkDuty 1 s),
                Event.ledcWrite LED_YELLOW_CHANNEL (blinkDuty 2 s)]
          else if s.isManualControlEnabled = false ∧ s.activeLightingMode = .MODE_FADE
          then s.trace ++ [Event.ledcWrite LED_RED_CHANNEL (toU32 (fm.redDuty (sub32 cm s.ledFadeTimer % 2000))),
                Event.ledcWrite LED_GREEN_CHANNEL (toU32 (fm.greenDuty (sub32 cm s.ledFadeTimer % 2000))),
                Event.ledcWrite LED_YELLOW_CHANNEL (toU32 (fm.yellowDuty (sub32 cm s.ledFadeTimer % 2000)))]
          else s.trace } := by
  obtain ⟨m, bt, bo, ft, st, pr, lh, lm, lb, mc, ml, ix, r, g, y, o, tr⟩ := s
  unfold loopLedModeBehavior
  rcases Nat.lt_or_ge (sub32 cm bt) LED_BLINK_INTERVAL with hd | hd
  · have hd2 : ¬ (LED_BLINK_INTERVAL ≤ sub32 cm bt) := by omega
    cases mc <;> cases m <;> cases bo <;>
      simp [hd, hd2, ledcWrite, blinkDuty, LED_RED_CHANNEL, LED_GREEN_CHANNEL, LED_YELLOW_CHANNEL]
  · cases mc <;> cases m <;> cases bo <;>
      simp [hd, ledcWrite, blinkDuty, LED_RED_CHANNEL, LED_GREEN_CHANNEL, LED_YELLOW_CHANNEL]

/-! ## Mode and boot buttons (C1, C2, C3) -/

theorem nextMode_toNat (m : LightingMode) :
    (nextMode m).toNat = (m.toNat + 1) % 4 := by
  cases m <;> rfl

/-- C1: a pass in which the mode button reads LOW, the debounce test passes and
no boot press is accepted ends with the mode advanced by one modulo four
(OFF, ALTERNATE, ALL_ON, FADE, OFF), for every level of the action button. -/
theorem C1_mode_press_advances (fm : FadeMath) (s : State) (i : Inputs)
    (hmode : modePressAccepted s i) (hboot : ¬ bootPressAccepted s i) :
    (loop fm s i).activeLightingMode = nextMode s.activeLightingMode
      ∧ (loop fm s i).activeLightingMode.toNat = (s.activeLightingMode.toNat + 1) % 4
      ∧ nextMode .MODE_OFF = .MODE_ALTERNATE ∧ nextMode .MODE_ALTERNATE = .MODE_ALL_ON
      ∧ nextMode .MODE_ALL_ON = .MODE_FADE ∧ nextMode .MODE_FADE = .MODE_OFF := by
  have h : (loop fm s i).activeLightingMode = nextMode s.activeLightingMode := by
    unfold modePressAccepted at hmode
    unfold bootPressAccepted at hboot
    simp only [loop, preRender, delay, loopLedModeBehavior_eq, loopActionButton_eq,
      loopBootButton_eq, loopModeButton_eq]
    rw [if_neg hboot, if_pos hmode]
  refine ⟨h, ?_, rfl, rfl, rfl, rfl⟩
  rw [h, nextMode_toNat]

theorem C1_mode_press_advances_witness :
    (loop realFade setupDone { idleAt 100 with modePin := .LOW }).activeLightingMode
      = .MODE_ALTERNATE :=
  (C1_mode_press_advances realFade setupDone { idleAt 100 with modePin := .LOW }
    (by decide) (by decide)).1

/-- C2 fails as stated: after power-on the action button is pressed at clock
reading 100; in the next pass (reading 200) a mode press is accepted and the
action button is sampled released, so the short-press toggle runs after
`updateLightingMode` and the pass ends with manual override enabled. -/
theorem C2_counterexample :
    modePressAccepted (loop realFade setupDone (actionHeldAt 100))
        { idleAt 200 with modePin := .LOW }
      ∧ (loop realFade (loop realFade setupDone (actionHeldAt 100))
          { idleAt 200 with modePin := .LOW }).isManualControlEnabled = true := by
  decide

/-- C2 (amended): in a pass in which a mode press or a boot press is accepted,
manual override is false right after the two button handlers, and at the end
of the pass it is true exactly when the action handler performs the
short-press toggle in the same pass; in particular it is false at the end
whenever the action button is sampled LOW. -/
theorem C2_override_after_accepted_press (fm : FadeMath) (s : State) (i : Inputs)
    (h : modePressAccepted s i ∨ bootPressAccepted s i) :
    (loopBootButton (wrap32 i.currentMillis) i
        (loopModeButton (wrap32 i.currentMillis) i s)).isManualControlEnabled = false
      ∧ ((loop fm s i).isManualControlEnabled = true ↔ shortPressReleased s i)
      ∧ (i.actionPin = .LOW → (loop fm s i).isManualControlEnabled = false) := by
  unfold modePressAccepted bootPressAccepted at h
  have hb : (loopBootButton (wrap32 i.currentMillis) i
        (loopModeButton (wrap32 i.currentMillis) i s)).isManualControlEnabled = false := by
    simp only [loopBootButton_eq, loopModeButton_eq]
    by_cases hB : i.bootPin = Level.LOW ∧
        sub32 (wrap32 i.currentMillis) s.lastBootButtonPressTime > BUTTON_DEBOUNCE_DELAY
    · rw [if_pos hB]
    · rw [if_neg hB, if_pos (h.resolve_right hB)]
  have hiff : (loop fm s i).isManualControlEnabled = true ↔ shortPressReleased s i := by
    unfold shortPressReleased
    simp only [loopBootButton_eq, loopModeButton_eq] at hb
    simp only [loop, preRender, delay, loopLedModeBehavior_eq, loopActionButton_eq,
      loopBootButton_eq, loopModeButton_eq, hb]
    constructor
    · intro h1
      by_contra h2
      rw [if_neg h2] at h1
      exact Bool.false_ne_true h1
    · intro h1
      rw [if_pos h1]
  refine ⟨hb, hiff, ?_⟩
  intro hlow
  cases hm : (loop fm s i).isManualControlEnabled
  · rfl
  · have := (hiff.mp hm).1
    rw [hlow] at this
    exact absurd this (by decide)

theorem C2_override_after_accepted_press_witness :
    (run realFade setupDone [actionHeldAt 100, idleAt 200]).isManualControlEnabled = true
      ∧ (loop realFade (run realFade setupDone [actionHeldAt 100, idleAt 200])
          (modePressAt 300)).isManualControlEnabled = false :=
  ⟨by decide,
    Bool.eq_false_iff.mpr (fun hc =>
      absurd
        ((C2_override_after_accepted_press realFade
          (run realFade setupDone [actionHeldAt 100, idleAt 200]) (modePressAt 300)
          (Or.inl (by decide))).2.1.mp hc)
        (by decide))⟩

/-- C3: a pass in which a boot-button press is accepted ends with the mode OFF,
for every prior state, also when a mode press is accepted earlier in the pass. -/
theorem C3_boot_press_forces_off (fm : FadeMath) (s : State) (i : Inputs)
    (hboot : bootPressAccepted s i) :
    (loop fm s i).activeLightingMode = .MODE_OFF := by
  unfold bootPressAccepted at hboot
  simp only [loop, preRender, delay, loopLedModeBehavior_eq, loopActionButton_eq,
    loopBootButton_eq, loopModeButton_eq]
  rw [if_pos hboot]

theorem C3_boot_press_forces_off_witness :
    modePressAccepted setupDone { idleAt 100 with modePin := .LOW, bootPin := .LOW }
      ∧ (loop realFade setupDone
          { idleAt 100 with modePin := .LOW, bootPin := .LOW }).activeLightingMode = .MODE_OFF :=
  ⟨by decide, C3_boot_press_forces_off realFade setupDone
    { idleAt 100 with modePin := .LOW, bootPin := .LOW } (by decide)⟩

/-! ## Short press (C4) -/

theorem loopActionButton_idle (cm : Nat) (j : Inputs) (t : State)
    (hpin : j.actionPin = .HIGH) (hp : t.isButtonPressed = false) :
    loopActionButton cm j t = t := by
  obtain ⟨m, bt, bo, ft, st, pr, lh, lm, lb, mc, ml, ix, r, g, y, o, tr⟩ := t
  simp only at hp
  subst hp
  rw [loopActionButton_eq]
  simp [hpin]

theorem loop_isButtonPressed (fm : FadeMath) (s : State) (i : Inputs) :
    (loop fm s i).isButtonPressed = if i.actionPin = .LOW then true else false := by
  simp only [loop, preRender, delay, loopLedModeBehavior_eq, loopActionButton_eq,
    loopBootButton_eq, loopModeButton_eq]

theorem loop_manualLEDState (fm : FadeMath) (s : State) (i : Inputs) :
    (loop fm s i).manualLEDState =
      if shortPressReleased s i then !s.manualLEDState else s.manualLEDState := by
  unfold shortPressReleased
  simp only [loop, preRender, delay, loopLedModeBehavior_eq, loopActionButton_eq,
    loopBootButton_eq, loopModeButton_eq]

theorem preAction_isButtonPressed (cm : Nat) (i : Inputs) (s : State) :
    (loopBootButton cm i (loopModeButton cm i s)).isButtonPressed = s.isButtonPressed := by
  simp only [loopBootButton_eq, loopModeButton_eq]

theorem run_released (fm : FadeMath) (js : List Inputs) (t : State)
    (hjs : ∀ j ∈ js, j.actionPin = .HIGH) (hp : t.isButtonPressed = false) :
    (run fm t js).isButtonPressed = false ∧ (run fm t js).manualLEDState = t.manualLEDState := by
  induction js generalizing t with
  | nil => exact ⟨hp, rfl⟩
  | cons j js ih =>
    have hj : j.actionPin = .HIGH := hjs j (List.mem_cons_self _ _)
    have h1 : (loop fm t j).isButtonPressed = false := by
      rw [loop_isButtonPressed, hj]; rfl
    have h2 : (loop fm t j).manualLEDState = t.manualLEDState := by
      rw [loop_manualLEDState, if_neg]
      intro h
      have := h.2.1
      rw [hp] at this
      exact Bool.false_ne_true this
    have := ih (loop fm t j) (fun k hk => hjs k (List.mem_cons_of_mem _ hk)) h1
    simp only [run, List.foldl_cons] at this ⊢
    exact ⟨this.1, this.2.trans h2⟩

/-- C4: from a state with a press recorded and the long-press flag clear, a pass
that samples the action button HIGH with measured duration below 1500 ends with
manual override enabled, `manualLEDState` negated and the three LED duties at
255 when the new `manualLEDState` is true and at 0 otherwise.  In every later
pass of a run in which the button stays HIGH the action handler maps its input
state to itself, and `manualLEDState` keeps the toggled value. -/
theorem C4_short_press_toggles_once (fm : FadeMath) (s : State) (i : Inputs)
    (hp : s.isButtonPressed = true) (hl : s.isLongPressHandled = false)
    (hpin : i.actionPin = .HIGH)
    (hd : sub32 (wrap32 i.currentMillis) s.buttonPressStartTime < 1500) :
    (loop fm s i).isManualControlEnabled = true
      ∧ (loop fm s i).manualLEDState = !s.manualLEDState
      ∧ (loop fm s i).ledRed = (if (loop fm s i).manualLEDState = true then 255 else 0)
      ∧ (loop fm s i).ledGreen = (if (loop fm s i).manualLEDState = true then 255 else 0)
      ∧ (loop fm s i).ledYellow = (if (loop fm s i).manualLEDState = true then 255 else 0)
      ∧ ∀ js : List Inputs, (∀ j ∈ js, j.actionPin = .HIGH) →
          (run fm (loop fm s i) js).manualLEDState = (loop fm s i).manualLEDState
          ∧ ∀ j : Inputs, j.actionPin = .HIGH →
              loopActionButton (wrap32 j.currentMillis) j
                  (loopBootButton (wrap32 j.currentMillis) j
                    (loopModeButton (wrap32 j.currentMillis) j (run fm (loop fm s i) js)))
                = loopBootButton (wrap32 j.currentMillis) j
                    (loopModeButton (wrap32 j.currentMillis) j (run fm (loop fm s i) js)) := by
  have hs : i.actionPin = .HIGH ∧ s.isButtonPressed = true ∧ s.isLongPressHandled = false ∧
      sub32 (wrap32 i.currentMillis) s.buttonPressStartTime < 1500 := ⟨hpin, hp, hl, hd⟩
  have hs2 : shortPressReleased s i := hs
  have hrel : (loop fm s i).isButtonPressed = false := by
    rw [loop_isButtonPressed, hpin]; rfl
  refine ⟨?_, ?_, ?_, ?_, ?_, ?_⟩
  · simp only [loop, preRender, delay, loopLedModeBehavior_eq, loopActionButton_eq,
      loopBootButton_eq, loopModeButton_eq]
    rw [if_pos hs]
  · rw [loop_manualLEDState, if_pos hs2]
  · simp only [loop, preRender, delay, loopLedModeBehavior_eq, loopActionButton_eq,
      loopBootButton_eq, loopModeButton_eq]
    simp only [hs, and_self, if_true]
    cases s.manualLEDState <;> simp
  · simp only [loop, preRender, delay, loopLedModeBehavior_eq, loopActionButton_eq,
      loopBootButton_eq, loopModeButton_eq]
    simp only [hs, and_self, if_true]
    cases s.manualLEDState <;> simp
  · simp only [loop, preRender, delay, loopLedModeBehavior_eq, loopActionButton_eq,
      loopBootButton_eq, loopModeButton_eq]
    simp only [hs, and_self, if_true]
    cases s.manualLEDState <;> simp
  · intro js hjs
    have hr := run_released fm js (loop fm s i) hjs hrel
    refine ⟨hr.2, ?_⟩
    intro j hj
    apply loopActionButton_idle _ _ _ hj
    rw [preAction_isButtonPressed]
    exact hr.1

theorem C4_short_press_toggles_once_witness :
    (loop realFade (loop realFade setupDone (actionHeldAt 100))
        (idleAt 200)).manualLEDState = true
      ∧ (loop realFade (loop realFade setupDone (actionHeldAt 100))
        (idleAt 200)).ledRed = 255 := by
  have h := C4_short_press_toggles_once realFade
    (loop realFade setupDone (actionHeldAt 100)) (idleAt 200)
    (by decide) (by decide) (by decide) (by decide)
  refine ⟨h.2.1.trans (by decide), h.2.2.1.trans ?_⟩
  rw [h.2.1]
  decide

/-! ## Long press (C5) -/

theorem count_modeEntryEvents (e : Event)
    (he : e = Event.ledcWriteTone BUZZER_PWM_CHANNEL 2500 ∨ e = Event.display "Action:" "Long Press")
    (m : LightingMode) : (modeEntryEvents m).count e = 0 := by
  rcases he with rfl | rfl <;> cases m <;> decide

theorem count_spin (e : Event)
    (he : e = Event.ledcWriteTone BUZZER_PWM_CHANNEL 2500 ∨ e = Event.display "Action:" "Long Press")
    (n : Nat) : (List.replicate n (Event.delay 10)).count e = 0 := by
  rcases he with rfl | rfl <;> simp [List.count_replicate]

theorem count_loopModeButton (e : Event)
    (he : e = Event.ledcWriteTone BUZZER_PWM_CHANNEL 2500 ∨ e = Event.display "Action:" "Long Press")
    (cm : Nat) (i : Inputs) (s : State) :
    (loopModeButton cm i s).trace.count e = s.trace.count e := by
  simp only [loopModeButton_eq]
  split_ifs
  · simp only [List.count_append, count_modeEntryEvents e he, count_spin e he, Nat.add_zero]
  · rfl

theorem count_loopBootButton (e : Event)
    (he : e = Event.ledcWriteTone BUZZER_PWM_CHANNEL 2500 ∨ e = Event.display "Action:" "Long Press")
    (cm : Nat) (i : Inputs) (s : State) :
    (loopBootButton cm i s).trace.count e = s.trace.count e := by
  have h7 : [Event.display "System:" "Reset (BOOT)"].count e = 0 := by
    rcases he with rfl | rfl <;> decide
  simp only [loopBootButton_eq]
  split_ifs
  · simp only [List.count_append, count_modeEntryEvents e he, count_spin e he, h7, Nat.add_zero]
  · rfl

theorem count_loopActionButton (e : Event)
    (he : e = Event.ledcWriteTone BUZZER_PWM_CHANNEL 2500 ∨ e = Event.display "Action:" "Long Press")
    (cm : Nat) (i : Inputs) (s : State) :
    (loopActionButton cm i s).trace.count e =
      s.trace.count e +
        (if i.actionPin = .LOW ∧ s.isButtonPressed = true ∧ s.isLongPressHandled = false
            ∧ sub32 cm s.buttonPressStartTime ≥ 1500 then 1 else 0) := by
  have h3 : longPressEvents.count e = 1 := by rcases he with rfl | rfl <;> decide
  have h4 : ∀ b, (shortPressEvents b).count e = 0 := by
    intro b; rcases he with rfl | rfl <;> cases b <;> decide
  simp only [loopActionButton_eq]
  split_ifs <;> simp only [List.count_append, h3, h4, Nat.add_zero]

theorem count_loopLedModeBehavior (e : Event)
    (he : e = Event.ledcWriteTone BUZZER_PWM_CHANNEL 2500 ∨ e = Event.display "Action:" "Long Press")
    (fm : FadeMath) (cm : Nat) (s : State) :
    (loopLedModeBehavior fm cm s).trace.count e = s.trace.count e := by
  have h5b : ∀ c d c2 d2 c3 d3,
      [Event.ledcWrite c d, Event.ledcWrite c2 d2, Event.ledcWrite c3 d3].count e = 0 := by
    intro c d c2 d2 c3 d3; rcases he with rfl | rfl <;> simp
  simp only [loopLedModeBehavior_eq]
  split_ifs <;> simp only [List.count_append, h5b, Nat.add_zero]

theorem count_loop_trace (e : Event)
    (he : e = Event.ledcWriteTone BUZZER_PWM_CHANNEL 2500 ∨ e = Event.display "Action:" "Long Press")
    (fm : FadeMath) (s : State) (i : Inputs) :
    (loop fm s i).trace.count e =
      s.trace.count e +
        (if i.actionPin = .LOW ∧ s.isButtonPressed = true ∧ s.isLongPressHandled = false
            ∧ sub32 (wrap32 i.currentMillis) s.buttonPressStartTime ≥ 1500 then 1 else 0) := by
  have h6 : [Event.delay 8].count e = 0 := by rcases he with rfl | rfl <;> simp
  have hf : (loopBootButton (wrap32 i.currentMillis) i
        (loopModeButton (wrap32 i.currentMillis) i s)).isButtonPressed = s.isButtonPressed
      ∧ (loopBootButton (wrap32 i.currentMillis) i
        (loopModeButton (wrap32 i.currentMillis) i s)).isLongPressHandled = s.isLongPressHandled
      ∧ (loopBootButton (wrap32 i.currentMillis) i
        (loopModeButton (wrap32 i.currentMillis) i s)).buttonPressStartTime
          = s.buttonPressStartTime := by
    simp only [loopBootButton_eq, loopModeButton_eq, and_self]
  unfold loop preRender delay
  simp only [List.count_append, h6, Nat.add_zero]
  rw [count_loopLedModeBehavior e he, count_loopActionButton e he, count_loopBootButton e he,
    count_loopModeButton e he, hf.1, hf.2.1, hf.2.2]

theorem loop_buttonPressStartTime (fm : FadeMath) (s : State) (i : Inputs) :
    (loop fm s i).buttonPressStartTime =
      if i.actionPin = .LOW ∧ s.isButtonPressed = false then wrap32 i.currentMillis
      else s.buttonPressStartTime := by
  simp only [loop, preRender, delay, loopLedModeBehavior_eq, loopActionButton_eq,
    loopBootButton_eq, loopModeButton_eq]

theorem loop_isLongPressHandled (fm : FadeMath) (s : State) (i : Inputs) :
    (loop fm s i).isLongPressHandled =
      if i.actionPin = .LOW ∧ s.isButtonPressed = false then false
      else if i.actionPin = .LOW ∧ s.isLongPressHandled = false
            ∧ sub32 (wrap32 i.currentMillis) s.buttonPressStartTime ≥ 1500 then true
      else s.isLongPressHandled := by
  simp only [loop, preRender, delay, loopLedModeBehavior_eq, loopActionButton_eq,
    loopBootButton_eq, loopModeButton_eq]

theorem held_run (e : Event)
    (he : e = Event.ledcWriteTone BUZZER_PWM_CHANNEL 2500 ∨ e = Event.display "Action:" "Long Press")
    (fm : FadeMath) (js : List Inputs) (t : State)
    (hjs : ∀ j ∈ js, j.actionPin = .LOW) (hp : t.isButtonPressed = true) :
    (run fm t js).trace.count e =
      t.trace.count e +
        (if t.isLongPressHandled = false ∧
            ∃ j ∈ js, 1500 ≤ sub32 (wrap32 j.currentMillis) t.buttonPressStartTime
         then 1 else 0) := by
  induction js generalizing t with
  | nil => simp [run]
  | cons j js ih =>
    have hj : j.actionPin = .LOW := hjs j (List.mem_cons_self _ _)
    have hp1 : (loop fm t j).isButtonPressed = true := by
      rw [loop_isButtonPressed, if_pos hj]
    have hst : (loop fm t j).buttonPressStartTime = t.buttonPressStartTime := by
      rw [loop_buttonPressStartTime, if_neg]
      rintro ⟨-, h⟩
      rw [hp] at h
      exact Bool.noConfusion h
    have hh := loop_isLongPressHandled fm t j
    rw [if_neg (by rintro ⟨-, h⟩; rw [hp] at h; exact Bool.noConfusion h)] at hh
    have hc := count_loop_trace e he fm t j
    have := ih (loop fm t j) (fun k hk => hjs k (List.mem_cons_of_mem _ hk)) hp1
    simp only [run, List.foldl_cons] at this ⊢
    rw [this, hc, hst, hh]
    simp only [hj, hp, true_and, List.exists_mem_cons_iff, ge_iff_le]
    by_cases hl : t.isLongPressHandled = false
    · by_cases hd : 1500 ≤ sub32 (wrap32 j.currentMillis) t.buttonPressStartTime
      · simp [hl, hd]
      · simp [hl, hd]
    · simp [hl]

theorem sub32_wrap32_right (a b : Nat) : sub32 a (wrap32 b) = sub32 a b := by
  unfold sub32 wrap32
  rw [Nat.mod_mod]

/-- C5: in a run of consecutive passes that all sample the action button LOW and
that starts at the falling edge (no press recorded before the first pass), after
any number `n` of passes of the run the long-press action (buzzer started at
2500 Hz, "Action:"/"Long Press" rendered) has fired once if one of these `n`
passes had `currentMillis - buttonPressStartTime >= 1500` and has not fired
otherwise: it fires at most once, in the first such pass, and never again. -/
theorem C5_long_press_fires_once (fm : FadeMath) (s : State) (i0 : Inputs)
    (rest : List Inputs) (n : Nat)
    (hidle : s.isButtonPressed = false)
    (hlow : ∀ j ∈ i0 :: rest, j.actionPin = .LOW) :
    toneCount (run fm s ((i0 :: rest).take n)).trace =
        toneCount s.trace +
          (if ∃ j ∈ (i0 :: rest).take n,
              1500 ≤ sub32 (wrap32 j.currentMillis) (wrap32 i0.currentMillis)
            then 1 else 0)
      ∧ longPressTextCount (run fm s ((i0 :: rest).take n)).trace =
        longPressTextCount s.trace +
          (if ∃ j ∈ (i0 :: rest).take n,
              1500 ≤ sub32 (wrap32 j.currentMillis) (wrap32 i0.currentMillis)
            then 1 else 0)
      ∧ (0 < n → (run fm s ((i0 :: rest).take n)).buttonPressStartTime
            = wrap32 i0.currentMillis) := by
  have h0 : i0.actionPin = .LOW := hlow i0 (List.mem_cons_self _ _)
  have key : ∀ e : Event,
      e = Event.ledcWriteTone BUZZER_PWM_CHANNEL 2500 ∨ e = Event.display "Action:" "Long Press" →
      (run fm s ((i0 :: rest).take n)).trace.count e =
        s.trace.count e +
          (if ∃ j ∈ (i0 :: rest).take n,
              1500 ≤ sub32 (wrap32 j.currentMillis) (wrap32 i0.currentMillis)
            then 1 else 0) := by
    intro e he
    cases n with
    | zero => simp [run]
    | succ m =>
      have hp1 : (loop fm s i0).isButtonPressed = true := by
        rw [loop_isButtonPressed, if_pos h0]
      have hst : (loop fm s i0).buttonPressStartTime = wrap32 i0.currentMillis := by
        rw [loop_buttonPressStartTime, if_pos ⟨h0, hidle⟩]
      have hh : (loop fm s i0).isLongPressHandled = false := by
        rw [loop_isLongPressHandled, if_pos ⟨h0, hidle⟩]
      have hc := count_loop_trace e he fm s i0
      rw [if_neg (by rintro ⟨-, h, -⟩; rw [hidle] at h; exact Bool.noConfusion h)] at hc
      have hr := held_run e he fm (rest.take m) (loop fm s i0)
        (fun k hk => hlow k (List.mem_cons_of_mem _ (List.mem_of_mem_take hk))) hp1
      have hz : ¬ (1500 ≤ sub32 (wrap32 i0.currentMillis) (wrap32 i0.currentMillis)) := by
        rw [sub32_self]; decide
      simp only [List.take_succ_cons, run, List.foldl_cons] at hr ⊢
      rw [hr, hc, hst, hh]
      simp only [List.exists_mem_cons_iff, hz, false_or, true_and, Nat.add_zero]
  refine ⟨key _ (Or.inl rfl), key _ (Or.inr rfl), ?_⟩
  intro hn
  obtain ⟨m, rfl⟩ : ∃ m, n = m + 1 := ⟨n - 1, by omega⟩
  have hp1 : (loop fm s i0).isButtonPressed = true := by
    rw [loop_isButtonPressed, if_pos h0]
  have hst : (loop fm s i0).buttonPressStartTime = wrap32 i0.currentMillis := by
    rw [loop_buttonPressStartTime, if_pos ⟨h0, hidle⟩]
  have : ∀ (js : List Inputs) (t : State), (∀ j ∈ js, j.actionPin = .LOW) →
      t.isButtonPressed = true →
      (run fm t js).buttonPressStartTime = t.buttonPressStartTime := by
    intro js
    induction js with
    | nil => intro t _ _; rfl
    | cons j js ih =>
      intro t hjs hp
      have hj : j.actionPin = .LOW := hjs j (List.mem_cons_self _ _)
      have h1 : (loop fm t j).isButtonPressed = true := by
        rw [loop_isButtonPressed, if_pos hj]
      have h2 : (loop fm t j).buttonPressStartTime = t.buttonPressStartTime := by
        rw [loop_buttonPressStartTime, if_neg]
        rintro ⟨-, h⟩
        rw [hp] at h
        exact Bool.noConfusion h
      have := ih (loop fm t j) (fun k hk => hjs k (List.mem_cons_of_mem _ hk)) h1
      simp only [run, List.foldl_cons] at this ⊢
      rw [this, h2]
  have h3 := this (rest.take m) (loop fm s i0)
    (fun k hk => hlow k (List.mem_cons_of_mem _ (List.mem_of_mem_take hk))) hp1
  simp only [List.take_succ_cons, run, List.foldl_cons] at h3 ⊢
  rw [h3, hst]

theorem C5_long_press_fires_once_witness :
    toneCount (run realFade setupDone
        [actionHeldAt 100, actionHeldAt 900, actionHeldAt 1600, actionHeldAt 2400]).trace = 1
      ∧ toneCount (run realFade setupDone
        [actionHeldAt 100, actionHeldAt 900]).trace = 0 :=
  ⟨(C5_long_press_fires_once realFade setupDone (actionHeldAt 100)
      [actionHeldAt 900, actionHeldAt 1600, actionHeldAt 2400] 4 (by decide) (by decide)).1.trans
      (by decide),
   (C5_long_press_fires_once realFade setupDone (actionHeldAt 100)
      [actionHeldAt 900, actionHeldAt 1600, actionHeldAt 2400] 2 (by decide) (by decide)).1.trans
      (by decide)⟩

/-! ## FADE waveform (C6) -/

theorem truncToInt_of_nonneg (x : ℝ) (hx : 0 ≤ x) : truncToInt x = ⌊x⌋ := by
  unfold truncToInt
  rw [if_pos hx]

theorem sinDuty_range (x : ℝ) :
    0 ≤ (Real.sin x + 1) / 2 * 255 ∧ (Real.sin x + 1) / 2 * 255 ≤ 255 := by
  have h1 := Real.neg_one_le_sin x
  have h2 := Real.sin_le_one x
  constructor <;> nlinarith

theorem toU32_truncToInt (x : ℝ) (h0 : 0 ≤ x) (h1 : x ≤ 255) :
    ((toU32 (truncToInt x) : ℕ) : ℤ) = ⌊x⌋ := by
  rw [truncToInt_of_nonneg x h0]
  have hf0 : 0 ≤ ⌊x⌋ := Int.floor_nonneg.mpr h0
  have hf1 : ⌊x⌋ ≤ 255 := by
    have : ⌊x⌋ ≤ ⌊(255 : ℝ)⌋ := Int.floor_mono h1
    simpa using this
  unfold toU32
  rw [Int.emod_eq_of_lt hf0 (by omega), Int.toNat_of_nonneg hf0]

theorem loop_fade (fm : FadeMath) (s : State) (i : Inputs)
    (hm : (loop fm s i).activeLightingMode = .MODE_FADE)
    (ho : (loop fm s i).isManualControlEnabled = false) :
    (loop fm s i).ledRed
        = toU32 (fm.redDuty (sub32 (wrap32 i.currentMillis) (loop fm s i).ledFadeTimer % 2000))
      ∧ (loop fm s i).ledGreen
        = toU32 (fm.greenDuty (sub32 (wrap32 i.currentMillis) (loop fm s i).ledFadeTimer % 2000))
      ∧ (loop fm s i).ledYellow
        = toU32 (fm.yellowDuty (sub32 (wrap32 i.currentMillis) (loop fm s i).ledFadeTimer % 2000)) := by
  simp only [loop, delay, loopLedModeBehavior_eq] at hm ho ⊢
  generalize preRender s i = p at hm ho ⊢
  have hT : ¬ (p.isManualControlEnabled = false ∧ p.activeLightingMode = .MODE_ALTERNATE
      ∧ sub32 (wrap32 i.currentMillis) p.ledBlinkTimer ≥ LED_BLINK_INTERVAL) := by
    rintro ⟨-, h, -⟩
    rw [hm] at h
    exact LightingMode.noConfusion h
  simp only [if_neg hT, if_pos (And.intro ho hm), and_self]

/-- C6 fails as stated: three accepted mode presses after power-on enter FADE
with `ledFadeTimer = 520`; the pass that starts at clock reading 2520 has
elapsed time 0 (phase 0) and writes red duty 127, the truncation of 127.5,
while `round(127.5)` is 128. -/
theorem C6_counterexample :
    (loop realFade
        (run realFade setupDone [modePressAt 100, modePressAt 300, modePressAt 500])
        (idleAt 2520)).activeLightingMode = .MODE_FADE
      ∧ (loop realFade
        (run realFade setupDone [modePressAt 100, modePressAt 300, modePressAt 500])
        (idleAt 2520)).isManualControlEnabled = false
      ∧ sub32 (wrap32 2520) 520 % 2000 = 0
      ∧ (loop realFade
        (run realFade setupDone [modePressAt 100, modePressAt 300, modePressAt 500])
        (idleAt 2520)).ledRed = 127
      ∧ round (255 * (Real.sin (2 * Real.pi * ((0 : ℝ) / 2000 + 0)) + 1) / 2) = 128 := by
  have hm : (loop realFade
        (run realFade setupDone [modePressAt 100, modePressAt 300, modePressAt 500])
        (idleAt 2520)).activeLightingMode = .MODE_FADE := by decide
  have ho : (loop realFade
        (run realFade setupDone [modePressAt 100, modePressAt 300, modePressAt 500])
        (idleAt 2520)).isManualControlEnabled = false := by decide
  have ht : (loop realFade
        (run realFade setupDone [modePressAt 100, modePressAt 300, modePressAt 500])
        (idleAt 2520)).ledFadeTimer = 520 := by decide
  have he : sub32 (wrap32 2520) 520 % 2000 = 0 := by decide
  refine ⟨hm, ho, he, ?_, ?_⟩
  · rw [(loop_fade realFade _ _ hm ho).1, ht]
    have hc : (idleAt 2520).currentMillis = 2520 := rfl
    rw [hc, he]
    have h127 : truncToInt ((Real.sin (2 * Real.pi * (((0 : ℕ) : ℝ) / 2000)) + 1) / 2 * 255)
        = 127 := by
      rw [truncToInt_of_nonneg _ (sinDuty_range _).1]
      simp only [Nat.cast_zero, zero_div, mul_zero, Real.sin_zero, zero_add]
      rw [Int.floor_eq_iff]
      constructor <;> norm_num
    show toU32 (truncToInt ((Real.sin (2 * Real.pi * (((0 : ℕ) : ℝ) / 2000)) + 1) / 2 * 255)) = 127
    rw [h127]
    decide
  · simp only [zero_div, add_zero, mul_zero, Real.sin_zero, zero_add]
    rw [round_eq, Int.floor_eq_iff]
    constructor <;> norm_num

/-- C6 (amended): when a pass ends in FADE mode with manual override disabled,
the duty written to each channel is the integer part (truncation, not rounding)
of `255 * (sin(2*pi*(phase + offset)) + 1) / 2` over the reals, with
`phase = ((currentMillis - ledFadeTimer) mod 2000) / 2000` and offset 0 for red,
1/3 for green and 2/3 for yellow; at phase 0 the red duty is 127. -/
theorem C6_fade_duty_is_truncated (s : State) (i : Inputs)
    (hm : (loop realFade s i).activeLightingMode = .MODE_FADE)
    (ho : (loop realFade s i).isManualControlEnabled = false) :
    (((loop realFade s i).ledRed : ℕ) : ℤ)
        = ⌊255 * (Real.sin (2 * Real.pi *
            (((sub32 (wrap32 i.currentMillis) (loop realFade s i).ledFadeTimer % 2000 : ℕ) : ℝ)
              / 2000 + 0)) + 1) / 2⌋
      ∧ (((loop realFade s i).ledGreen : ℕ) : ℤ)
        = ⌊255 * (Real.sin (2 * Real.pi *
            (((sub32 (wrap32 i.currentMillis) (loop realFade s i).ledFadeTimer % 2000 : ℕ) : ℝ)
              / 2000 + 1 / 3)) + 1) / 2⌋
      ∧ (((loop realFade s i).ledYellow : ℕ) : ℤ)
        = ⌊255 * (Real.sin (2 * Real.pi *
            (((sub32 (wrap32 i.currentMillis) (loop realFade s i).ledFadeTimer % 2000 : ℕ) : ℝ)
              / 2000 + 2 / 3)) + 1) / 2⌋
      ∧ (sub32 (wrap32 i.currentMillis) (loop realFade s i).ledFadeTimer % 2000 = 0 →
          (loop realFade s i).ledRed = 127) := by
  obtain ⟨hr, hg, hy⟩ := loop_fade realFade s i hm ho
  have conv : ∀ x : ℝ, 255 * (Real.sin x + 1) / 2 = (Real.sin x + 1) / 2 * 255 := by
    intro x; ring
  have hred : (((loop realFade s i).ledRed : ℕ) : ℤ)
        = ⌊255 * (Real.sin (2 * Real.pi *
            (((sub32 (wrap32 i.currentMillis) (loop realFade s i).ledFadeTimer % 2000 : ℕ) : ℝ)
              / 2000 + 0)) + 1) / 2⌋ := by
    rw [hr, conv, add_zero]
    exact toU32_truncToInt _ (sinDuty_range _).1 (sinDuty_range _).2
  refine ⟨hred, ?_, ?_, ?_⟩
  · rw [hg, conv]
    exact toU32_truncToInt _ (sinDuty_range _).1 (sinDuty_range _).2
  · rw [hy, conv]
    exact toU32_truncToInt _ (sinDuty_range _).1 (sinDuty_range _).2
  · intro he
    rw [he] at hred
    have h127 : ⌊255 * (Real.sin (2 * Real.pi * (((0 : ℕ) : ℝ) / 2000 + 0)) + 1) / 2⌋
        = (127 : ℤ) := by
      simp only [Nat.cast_zero, zero_div, add_zero, mul_zero, Real.sin_zero, zero_add]
      rw [Int.floor_eq_iff]
      constructor <;> norm_num
    rw [h127] at hred
    exact_mod_cast hred

theorem C6_fade_duty_is_truncated_witness :
    (loop realFade (run realFade setupDone [modePressAt 100, modePressAt 300, modePressAt 500])
        (idleAt 2520)).ledRed = 127 :=
  (C6_fade_duty_is_truncated
    (run realFade setupDone [modePressAt 100, modePressAt 300, modePressAt 500]) (idleAt 2520)
    (by decide) (by decide)).2.2.2 (by decide)

/-! ## ALTERNATE renderer (C7) -/

theorem preRender_currentLEDIndex (s : State) (i : Inputs) :
    (preRender s i).currentLEDIndex = s.currentLEDIndex := by
  simp only [preRender, loopActionButton_eq, loopBootButton_eq, loopModeButton_eq]

theorem preRender_blinking (s : State) (i : Inputs)
    (hm : (preRender s i).activeLightingMode = .MODE_ALTERNATE)
    (ho : (preRender s i).isManualControlEnabled = false)
    (hb : (preRender s i).isBlinkOn = true) :
    s.activeLightingMode = .MODE_ALTERNATE ∧ s.isManualControlEnabled = false
      ∧ s.isBlinkOn = true ∧ (preRender s i).ledRed = s.ledRed
      ∧ (preRender s i).ledGreen = s.ledGreen ∧ (preRender s i).ledYellow = s.ledYellow := by
  simp only [preRender, loopActionButton_eq, loopBootButton_eq, loopModeButton_eq] at hm ho hb ⊢
  by_cases hB : i.bootPin = Level.LOW ∧
      sub32 (wrap32 i.currentMillis) s.lastBootButtonPressTime > BUTTON_DEBOUNCE_DELAY
  · rw [if_pos hB] at hm
    exact LightingMode.noConfusion hm
  · by_cases hA : i.modePin = Level.LOW ∧
        sub32 (wrap32 i.currentMillis) s.lastModeButtonPressTime > BUTTON_DEBOUNCE_DELAY
    · rw [if_neg hB, if_pos hA] at hm
      rw [if_pos ⟨hA, hm⟩] at hb
      exact Bool.noConfusion hb
    · by_cases hS : i.actionPin = Level.HIGH ∧ s.isButtonPressed = true ∧
          s.isLongPressHandled = false ∧
          sub32 (wrap32 i.currentMillis) s.buttonPressStartTime < 1500
      · rw [if_pos hS] at ho
        exact Bool.noConfusion ho
      · rw [if_neg hB, if_neg hA] at hm
        rw [if_neg hS, if_neg hB, if_neg hA] at ho
        rw [if_neg (fun h => hA h.1)] at hb
        simp only [if_neg hS, if_neg hB, if_neg hA]
        exact ⟨hm, ho, hb, trivial, trivial, trivial⟩

theorem tmod_three (x : Int) (h0 : 0 ≤ x) (h3 : x < 3) :
    Int.tmod (x + 1) 3 = (x + 1) % 3 ∧ 0 ≤ Int.tmod (x + 1) 3 ∧ Int.tmod (x + 1) 3 < 3 := by
  have : x = 0 ∨ x = 1 ∨ x = 2 := by omega
  rcases this with rfl | rfl | rfl <;> decide

theorem alternateInv_loop (fm : FadeMath) (s : State) (i : Inputs) (h : AlternateInv s) :
    AlternateInv (loop fm s i) := by
  obtain ⟨⟨h0, h3⟩, hlit⟩ := h
  have hidx := preRender_currentLEDIndex s i
  have hpre := preRender_blinking s i
  have ht := tmod_three s.currentLEDIndex h0 h3
  unfold AlternateInv onlyLit
  simp only [loop, delay, loopLedModeBehavior_eq]
  generalize preRender s i = p at hidx hpre ⊢
  by_cases hT : p.isManualControlEnabled = false ∧ p.activeLightingMode = .MODE_ALTERNATE
      ∧ sub32 (wrap32 i.currentMillis) p.ledBlinkTimer ≥ LED_BLINK_INTERVAL
  · by_cases hb : p.isBlinkOn = false
    · have hTb : (p.isManualControlEnabled = false ∧ p.activeLightingMode = .MODE_ALTERNATE
          ∧ sub32 (wrap32 i.currentMillis) p.ledBlinkTimer ≥ LED_BLINK_INTERVAL)
          ∧ p.isBlinkOn = false := ⟨hT, hb⟩
      simp only [if_pos hT, if_pos hTb, hidx]
      refine ⟨⟨ht.2.1, ht.2.2⟩, fun _ _ _ => ?_⟩
      simp only [blinkDuty, hb, hidx, true_and, and_self]
    · have hTb : ¬ ((p.isManualControlEnabled = false ∧ p.activeLightingMode = .MODE_ALTERNATE
          ∧ sub32 (wrap32 i.currentMillis) p.ledBlinkTimer ≥ LED_BLINK_INTERVAL)
          ∧ p.isBlinkOn = false) := fun h => hb h.2
      simp only [if_pos hT, if_neg hTb, hidx]
      refine ⟨⟨h0, h3⟩, fun _ _ hc => ?_⟩
      have hb1 : p.isBlinkOn = true := by simpa using hb
      rw [hb1] at hc
      exact Bool.noConfusion hc
  · have hTb : ¬ ((p.isManualControlEnabled = false ∧ p.activeLightingMode = .MODE_ALTERNATE
        ∧ sub32 (wrap32 i.currentMillis) p.ledBlinkTimer ≥ LED_BLINK_INTERVAL)
        ∧ p.isBlinkOn = false) := fun h => hT h.1
    simp only [if_neg hT, if_neg hTb, hidx]
    refine ⟨⟨h0, h3⟩, fun hm ho hb => ?_⟩
    have hF : ¬ (p.isManualControlEnabled = false ∧ p.activeLightingMode = .MODE_FADE) := by
      rintro ⟨-, hf⟩
      rw [hm] at hf
      exact LightingMode.noConfusion hf
    simp only [if_neg hF]
    obtain ⟨h1, h2, h4, hr, hg, hy⟩ := hpre hm ho hb
    rw [hr, hg, hy]
    exact hlit h1 h2 h4

theorem alternateInv_setupDone : AlternateInv setupDone := by
  refine ⟨by decide, fun h => ?_⟩
  exact absurd h (by decide)

theorem reachable_alternateInv (fm : FadeMath) (s : State) (h : Reachable fm s) :
    AlternateInv s := by
  induction h with
  | boot s hs =>
    have : s = setupDone := by
      simp only [setup] at hs
      exact (Option.some.inj hs).symm
    rw [this]
    exact alternateInv_setupDone
  | step s i _ ih => exact alternateInv_loop fm s i ih

theorem loop_currentLEDIndex (fm : FadeMath) (s : State) (i : Inputs) :
    (loop fm s i).currentLEDIndex =
      if blinkToggles s i ∧ (preRender s i).isBlinkOn = false
      then Int.tmod (s.currentLEDIndex + 1) 3 else s.currentLEDIndex := by
  unfold blinkToggles
  simp only [loop, delay, loopLedModeBehavior_eq, preRender_currentLEDIndex]

theorem loop_isBlinkOn (fm : FadeMath) (s : State) (i : Inputs) :
    (loop fm s i).isBlinkOn =
      if blinkToggles s i then !(preRender s i).isBlinkOn else (preRender s i).isBlinkOn := by
  unfold blinkToggles
  simp only [loop, delay, loopLedModeBehavior_eq]

/-- C7: in every reachable state with mode ALTERNATE, manual override disabled
and the blink flag on, the LED channel numbered `currentLEDIndex` (0 red,
1 green, 2 yellow) has duty 255 and the other two have duty 0.  A pass in which
the renderer toggles the flag on moves the index to (index + 1) mod 3; a pass
that toggles the flag off, or does not toggle it, leaves the index unchanged. -/
theorem C7_alternate_one_lit (fm : FadeMath) (s : State) (hr : Reachable fm s) :
    (s.activeLightingMode = .MODE_ALTERNATE → s.isManualControlEnabled = false →
        s.isBlinkOn = true →
        onlyLit s.currentLEDIndex s
          ∧ ((s.ledRed = 255 ∧ s.ledGreen = 0 ∧ s.ledYellow = 0)
            ∨ (s.ledRed = 0 ∧ s.ledGreen = 255 ∧ s.ledYellow = 0)
            ∨ (s.ledRed = 0 ∧ s.ledGreen = 0 ∧ s.ledYellow = 255)))
      ∧ (0 ≤ s.currentLEDIndex ∧ s.currentLEDIndex < 3)
      ∧ ∀ i : Inputs,
          (blinkToggles s i → (preRender s i).isBlinkOn = false →
            (loop fm s i).isBlinkOn = true
              ∧ (loop fm s i).currentLEDIndex = (s.currentLEDIndex + 1) % 3)
          ∧ (blinkToggles s i → (preRender s i).isBlinkOn = true →
            (loop fm s i).isBlinkOn = false
              ∧ (loop fm s i).currentLEDIndex = s.currentLEDIndex)
          ∧ (¬ blinkToggles s i →
            (loop fm s i).isBlinkOn = (preRender s i).isBlinkOn
              ∧ (loop fm s i).currentLEDIndex = s.currentLEDIndex) := by
  obtain ⟨⟨h0, h3⟩, hlit⟩ := reachable_alternateInv fm s hr
  refine ⟨fun hm ho hb => ?_, ⟨h0, h3⟩, fun i => ⟨?_, ?_, ?_⟩⟩
  · have hl := hlit hm ho hb
    refine ⟨hl, ?_⟩
    obtain ⟨h1, h2, h4⟩ := hl
    have : s.currentLEDIndex = 0 ∨ s.currentLEDIndex = 1 ∨ s.currentLEDIndex = 2 := by omega
    rcases this with h | h | h <;> rw [h] at h1 h2 h4
    · exact Or.inl ⟨h1, h2, h4⟩
    · exact Or.inr (Or.inl ⟨h1, h2, h4⟩)
    · exact Or.inr (Or.inr ⟨h1, h2, h4⟩)
  · intro ht hb
    rw [loop_isBlinkOn, loop_currentLEDIndex, if_pos ht, if_pos ⟨ht, hb⟩, hb]
    exact ⟨rfl, (tmod_three _ h0 h3).1⟩
  · intro ht hb
    rw [loop_isBlinkOn, loop_currentLEDIndex, if_pos ht, if_neg, hb]
    · exact ⟨rfl, rfl⟩
    · rintro ⟨-, h⟩
      rw [hb] at h
      exact Bool.noConfusion h
  · intro ht
    rw [loop_isBlinkOn, loop_currentLEDIndex, if_neg ht, if_neg (fun h => ht h.1)]
    exact ⟨rfl, rfl⟩

theorem C7_alternate_one_lit_witness :
    (loop realFade setupDone (modePressAt 100)).isBlinkOn = true
      ∧ (loop realFade setupDone (modePressAt 100)).currentLEDIndex = 1
      ∧ onlyLit (loop realFade setupDone (modePressAt 100)).currentLEDIndex
          (loop realFade setupDone (modePressAt 100)) :=
  ⟨by decide, by decide,
    ((C7_alternate_one_lit realFade (loop realFade setupDone (modePressAt 100))
      (Reachable.step _ _ (Reachable.boot _ rfl))).1 (by decide) (by decide) (by decide)).1⟩

/-! ## Manual override and the renderer (C10) -/

theorem manualInv_preRender (s : State) (i : Inputs) (h : ManualInv s) :
    ManualInv (preRender s i) := by
  unfold ManualInv at h ⊢
  simp only [preRender, loopActionButton_eq, loopBootButton_eq, loopModeButton_eq]
  by_cases hS : i.actionPin = Level.HIGH ∧ s.isButtonPressed = true ∧
      s.isLongPressHandled = false ∧
      sub32 (wrap32 i.currentMillis) s.buttonPressStartTime < 1500
  · simp only [if_pos hS]
    intro _
    cases s.manualLEDState <;> simp
  · simp only [if_neg hS]
    by_cases hB : i.bootPin = Level.LOW ∧
        sub32 (wrap32 i.currentMillis) s.lastBootButtonPressTime > BUTTON_DEBOUNCE_DELAY
    · simp only [if_pos hB]
      intro hc
      exact Bool.noConfusion hc
    · simp only [if_neg hB]
      by_cases hA : i.modePin = Level.LOW ∧
          sub32 (wrap32 i.currentMillis) s.lastModeButtonPressTime > BUTTON_DEBOUNCE_DELAY
      · simp only [if_pos hA]
        intro hc
        exact Bool.noConfusion hc
      · simp only [if_neg hA]
        exact h

theorem renderer_skipped (fm : FadeMath) (cm : Nat) (p : State)
    (h : p.isManualControlEnabled = true) : loopLedModeBehavior fm cm p = p := by
  unfold loopLedModeBehavior
  rw [if_neg]
  rw [h]
  exact Bool.noConfusion

theorem loop_isManualControlEnabled (fm : FadeMath) (s : State) (i : Inputs) :
    (loop fm s i).isManualControlEnabled = (preRender s i).isManualControlEnabled := by
  simp only [loop, delay, loopLedModeBehavior_eq]

theorem manualInv_loop (fm : FadeMath) (s : State) (i : Inputs) (h : ManualInv s) :
    ManualInv (loop fm s i) := by
  have hp := manualInv_preRender s i h
  unfold ManualInv at hp ⊢
  intro hm
  rw [loop_isManualControlEnabled] at hm
  have hq : loop fm s i = delay 8 (preRender s i) := by
    unfold loop
    simp only [renderer_skipped fm _ _ hm]
  rw [hq]
  exact hp hm

theorem reachable_manualInv (fm : FadeMath) (s : State) (h : Reachable fm s) :
    ManualInv s := by
  induction h with
  | boot s hs =>
    have : s = setupDone := by
      simp only [setup] at hs
      exact (Option.some.inj hs).symm
    rw [this]
    intro hc
    exact absurd hc (by decide)
  | step s i _ ih => exact manualInv_loop fm s i ih

/-- C10: in every state reachable from the post-setup state, when manual
override is enabled the three LED duties equal the manual level (255 when
`manualLEDState` is true, 0 when false).  A pass that ends with override
enabled skips the mode renderer: the renderer section maps its input state to
itself, so it writes no LED channel.  Override at the end of a pass equals
override at the renderer's guard, so the renderer runs exactly in the passes
that end with override disabled. -/
theorem C10_override_excludes_renderer (fm : FadeMath) (s : State) (hr : Reachable fm s) :
    (s.isManualControlEnabled = true →
        s.ledRed = (if s.manualLEDState = true then 255 else 0)
          ∧ s.ledGreen = (if s.manualLEDState = true then 255 else 0)
          ∧ s.ledYellow = (if s.manualLEDState = true then 255 else 0))
      ∧ ∀ i : Inputs,
          ((loop fm s i).isManualControlEnabled = true →
            loopLedModeBehavior fm (wrap32 i.currentMillis) (preRender s i) = preRender s i
              ∧ (loop fm s i).trace = (preRender s i).trace ++ [Event.delay 8])
          ∧ (loop fm s i).isManualControlEnabled = (preRender s i).isManualControlEnabled := by
  refine ⟨reachable_manualInv fm s hr, fun i => ⟨fun hm => ?_, loop_isManualControlEnabled fm s i⟩⟩
  rw [loop_isManualControlEnabled] at hm
  refine ⟨renderer_skipped fm _ _ hm, ?_⟩
  unfold loop
  simp only [renderer_skipped fm _ _ hm]
  rfl

theorem C10_override_excludes_renderer_witness :
    (run realFade setupDone [actionHeldAt 100, idleAt 200]).isManualControlEnabled = true
      ∧ (run realFade setupDone [actionHeldAt 100, idleAt 200]).ledRed = 255
      ∧ (run realFade setupDone [actionHeldAt 100, idleAt 200]).ledGreen = 255
      ∧ (run realFade setupDone [actionHeldAt 100, idleAt 200]).ledYellow = 255 :=
  ⟨by decide,
    (C10_override_excludes_renderer realFade
      (run realFade setupDone [actionHeldAt 100, idleAt 200])
      (Reachable.step _ _ (Reachable.step _ _ (Reachable.boot _ rfl)))).1 (by decide)⟩

/-! ## Display texts of setup and the mode cycle (C9) -/

theorem renders_append (a b : List Event) : renders (a ++ b) = renders a ++ renders b := by
  induction a with
  | nil => rfl
  | cons e a ih => cases e <;> simp [renders, ih]

theorem renders_modeEntryEvents (m : LightingMode) :
    renders (modeEntryEvents m) = [("Mode:", modeLabel m)] := by
  cases m <;> rfl

theorem renders_spin (n : Nat) : renders (List.replicate n (Event.delay 10)) = [] := by
  induction n with
  | zero => rfl
  | succ n ih => simp [List.replicate_succ, renders, ih]

/-- A pass with the boot and action buttons idle in which a mode press is
accepted renders exactly "Mode:" and the label of the new mode. -/
theorem loop_mode_press_renders (fm : FadeMath) (s : State) (i : Inputs)
    (hmode : modePressAccepted s i) (hboot : i.bootPin = .HIGH)
    (hact : i.actionPin = .HIGH) (hp : s.isButtonPressed = false) :
    (loop fm s i).activeLightingMode = nextMode s.activeLightingMode
      ∧ (loop fm s i).isButtonPressed = false
      ∧ (loop fm s i).oled = some ("Mode:", modeLabel (nextMode s.activeLightingMode))
      ∧ renders (loop fm s i).trace
          = renders s.trace ++ [("Mode:", modeLabel (nextMode s.activeLightingMode))] := by
  unfold modePressAccepted at hmode
  have hB : ¬ (i.bootPin = Level.LOW ∧
      sub32 (wrap32 i.currentMillis) s.lastBootButtonPressTime > BUTTON_DEBOUNCE_DELAY) := by
    rintro ⟨h, -⟩
    rw [hboot] at h
    exact Level.noConfusion h
  have hpre : (loopBootButton (wrap32 i.currentMillis) i
      (loopModeButton (wrap32 i.currentMillis) i s)).isButtonPressed = false := by
    rw [preAction_isButtonPressed]; exact hp
  have hr : ∀ c d c2 d2 c3 d3,
      renders [Event.ledcWrite c d, Event.ledcWrite c2 d2, Event.ledcWrite c3 d3] = [] := by
    intros; rfl
  refine ⟨?_, ?_, ?_, ?_⟩
  · simp only [loop, preRender, delay, loopLedModeBehavior_eq, loopActionButton_eq,
      loopBootButton_eq, loopModeButton_eq]
    rw [if_neg hB, if_pos hmode]
  · rw [loop_isButtonPressed, hact]; rfl
  · unfold loop preRender
    rw [loopActionButton_idle _ _ _ hact hpre]
    simp only [delay, loopLedModeBehavior_eq, loopBootButton_eq, loopModeButton_eq]
    rw [if_neg hB, if_pos hmode]
  · unfold loop preRender
    rw [loopActionButton_idle _ _ _ hact hpre]
    simp only [delay, loopLedModeBehavior_eq]
    simp only [renders_append]
    have h8 : renders [Event.delay 8] = [] := rfl
    rw [h8, List.append_nil]
    have hpt : renders (loopBootButton (wrap32 i.currentMillis) i
        (loopModeButton (wrap32 i.currentMillis) i s)).trace
        = renders s.trace ++ [("Mode:", modeLabel (nextMode s.activeLightingMode))] := by
      simp only [loopBootButton_eq, loopModeButton_eq]
      rw [if_neg hB, if_pos hmode]
      simp only [renders_append, renders_modeEntryEvents, renders_spin, List.append_nil]
    split_ifs <;> simp only [renders_append, hr, List.append_nil, hpt]

theorem loop_activeLightingMode (fm : FadeMath) (s : State) (i : Inputs) :
    (loop fm s i).activeLightingMode =
      if bootPressAccepted s i then .MODE_OFF
      else if modePressAccepted s i then nextMode s.activeLightingMode
      else s.activeLightingMode := by
  unfold bootPressAccepted modePressAccepted
  simp only [loop, preRender, delay, loopLedModeBehavior_eq, loopActionButton_eq,
    loopBootButton_eq, loopModeButton_eq]

theorem nextMode_four (m : LightingMode) : nextMode (nextMode (nextMode (nextMode m))) = m := by
  cases m <;> rfl

theorem run_append (fm : FadeMath) (s : State) (a b : List Inputs) :
    run fm s (a ++ b) = run fm (run fm s a) b := by
  simp only [run, List.foldl_append]

/-- A pass with all three buttons released and no press recorded renders
nothing and keeps the mode, the display text and the debounce timestamp. -/
theorem loop_idle (fm : FadeMath) (s : State) (i : Inputs)
    (hm : i.modePin = .HIGH) (hb : i.bootPin = .HIGH) (ha : i.actionPin = .HIGH)
    (hp : s.isButtonPressed = false) :
    (loop fm s i).activeLightingMode = s.activeLightingMode
      ∧ (loop fm s i).isButtonPressed = false
      ∧ (loop fm s i).oled = s.oled
      ∧ renders (loop fm s i).trace = renders s.trace
      ∧ (loop fm s i).lastModeButtonPressTime = s.lastModeButtonPressTime := by
  have h1 : loopModeButton (wrap32 i.currentMillis) i s = s := by
    unfold loopModeButton
    rw [if_neg]
    rw [hm]
    exact Level.noConfusion
  have h2 : loopBootButton (wrap32 i.currentMillis) i s = s := by
    unfold loopBootButton
    rw [if_neg]
    rw [hb]
    exact Level.noConfusion
  have hpre : preRender s i = s := by
    unfold preRender
    simp only [h1, h2]
    exact loopActionButton_idle _ _ _ ha hp
  have hr : ∀ c d c2 d2 c3 d3,
      renders [Event.ledcWrite c d, Event.ledcWrite c2 d2, Event.ledcWrite c3 d3] = [] := by
    intros; rfl
  have h8 : renders [Event.delay 8] = [] := rfl
  unfold loop
  rw [hpre]
  simp only [delay, loopLedModeBehavior_eq, renders_append, h8, List.append_nil]
  refine ⟨trivial, hp, trivial, ?_, trivial⟩
  split_ifs <;> simp only [renders_append, hr, List.append_nil]

theorem run_idle (fm : FadeMath) (q : List Inputs) (s : State)
    (hq : ∀ j ∈ q, j.modePin = .HIGH ∧ j.bootPin = .HIGH ∧ j.actionPin = .HIGH)
    (hp : s.isButtonPressed = false) :
    (run fm s q).activeLightingMode = s.activeLightingMode
      ∧ (run fm s q).isButtonPressed = false
      ∧ (run fm s q).oled = s.oled
      ∧ renders (run fm s q).trace = renders s.trace
      ∧ (run fm s q).lastModeButtonPressTime = s.lastModeButtonPressTime := by
  induction q generalizing s with
  | nil => exact ⟨rfl, hp, rfl, rfl, rfl⟩
  | cons j q ih =>
    obtain ⟨hm, hb, ha⟩ := hq j (List.mem_cons_self _ _)
    obtain ⟨a1, a2, a3, a4, a5⟩ := loop_idle fm s j hm hb ha hp
    obtain ⟨b1, b2, b3, b4, b5⟩ := ih (loop fm s j) (fun k hk => hq k (List.mem_cons_of_mem _ hk)) a2
    simp only [run, List.foldl_cons] at b1 b2 b3 b4 b5 ⊢
    exact ⟨b1.trans a1, b2, b3.trans a3, b4.trans a4, b5.trans a5⟩

/-- A mode press accepted after a run of idle passes. -/
theorem run_idle_then_press (fm : FadeMath) (q : List Inputs) (i : Inputs) (s : State)
    (hq : ∀ j ∈ q, j.modePin = .HIGH ∧ j.bootPin = .HIGH ∧ j.actionPin = .HIGH)
    (hp : s.isButtonPressed = false)
    (hmode : modePressAccepted (run fm s q) i) (hboot : i.bootPin = .HIGH)
    (hact : i.actionPin = .HIGH) :
    (run fm s (q ++ [i])).activeLightingMode = nextMode s.activeLightingMode
      ∧ (run fm s (q ++ [i])).isButtonPressed = false
      ∧ (run fm s (q ++ [i])).oled = some ("Mode:", modeLabel (nextMode s.activeLightingMode))
      ∧ renders (run fm s (q ++ [i])).trace
          = renders s.trace ++ [("Mode:", modeLabel (nextMode s.activeLightingMode))] := by
  obtain ⟨a1, a2, -, a4, -⟩ := run_idle fm q s hq hp
  obtain ⟨b1, b2, b3, b4⟩ := loop_mode_press_renders fm (run fm s q) i hmode hboot hact a2
  have e : run fm s (q ++ [i]) = loop fm (run fm s q) i := by
    rw [run_append]; rfl
  rw [e, b1, b3, b4, a1, a4]
  exact ⟨rfl, b2, rfl, rfl⟩

/-- C9: `setup` with the display initialised returns after rendering
"System:"/"Ready" and then "Mode:"/"All OFF".  From that state, with the boot
and action buttons idle, the first four passes that accept a mode press (with
any number of passes with all buttons released before each of them) render
"Mode:"/"Alternate", "Mode:"/"All ON", "Mode:"/"PWM Fade" and "Mode:"/"All OFF"
in turn, nothing else is rendered, and the mode is OFF after the fourth.  From
any state four accepted mode presses without an accepted boot press return the
mode to its starting value, and the text a mode press renders is "Mode:" with
the label of the new mode. -/
theorem C9_setup_and_mode_cycle_texts (fm : FadeMath) (q1 q2 q3 q4 : List Inputs)
    (i1 i2 i3 i4 : Inputs)
    (hq : ∀ j ∈ q1 ++ q2 ++ q3 ++ q4,
      j.modePin = .HIGH ∧ j.bootPin = .HIGH ∧ j.actionPin = .HIGH)
    (hidle : ∀ j ∈ [i1, i2, i3, i4], j.bootPin = .HIGH ∧ j.actionPin = .HIGH)
    (h1 : modePressAccepted (run fm setupDone q1) i1)
    (h2 : modePressAccepted (run fm (run fm setupDone (q1 ++ [i1])) q2) i2)
    (h3 : modePressAccepted
      (run fm (run fm (run fm setupDone (q1 ++ [i1])) (q2 ++ [i2])) q3) i3)
    (h4 : modePressAccepted
      (run fm (run fm (run fm (run fm setupDone (q1 ++ [i1])) (q2 ++ [i2])) (q3 ++ [i3])) q4)
      i4) :
    setup true = some setupDone
      ∧ renders setupDone.trace = [("System:", "Ready"), ("Mode:", "All OFF")]
      ∧ setupDone.oled = some ("Mode:", "All OFF")
      ∧ renders (run fm setupDone (q1 ++ [i1])).trace
          = [("System:", "Ready"), ("Mode:", "All OFF"), ("Mode:", "Alternate")]
      ∧ (run fm setupDone (q1 ++ [i1])).oled = some ("Mode:", "Alternate")
      ∧ renders (run fm (run fm setupDone (q1 ++ [i1])) (q2 ++ [i2])).trace
          = [("System:", "Ready"), ("Mode:", "All OFF"), ("Mode:", "Alternate"),
              ("Mode:", "All ON")]
      ∧ (run fm (run fm setupDone (q1 ++ [i1])) (q2 ++ [i2])).oled = some ("Mode:", "All ON")
      ∧ renders (run fm (run fm (run fm setupDone (q1 ++ [i1])) (q2 ++ [i2]))
            (q3 ++ [i3])).trace
          = [("System:", "Ready"), ("Mode:", "All OFF"), ("Mode:", "Alternate"),
              ("Mode:", "All ON"), ("Mode:", "PWM Fade")]
      ∧ (run fm (run fm (run fm setupDone (q1 ++ [i1])) (q2 ++ [i2])) (q3 ++ [i3])).oled
          = some ("Mode:", "PWM Fade")
      ∧ renders (run fm (run fm (run fm (run fm setupDone (q1 ++ [i1])) (q2 ++ [i2]))
            (q3 ++ [i3])) (q4 ++ [i4])).trace
          = [("System:", "Ready"), ("Mode:", "All OFF"), ("Mode:", "Alternate"),
              ("Mode:", "All ON"), ("Mode:", "PWM Fade"), ("Mode:", "All OFF")]
      ∧ (run fm (run fm (run fm (run fm setupDone (q1 ++ [i1])) (q2 ++ [i2]))
            (q3 ++ [i3])) (q4 ++ [i4])).oled = some ("Mode:", "All OFF")
      ∧ (run fm (run fm (run fm (run fm setupDone (q1 ++ [i1])) (q2 ++ [i2]))
            (q3 ++ [i3])) (q4 ++ [i4])).activeLightingMode = .MODE_OFF
      ∧ (∀ (s : State) (j1 j2 j3 j4 : Inputs),
          modePressAccepted s j1 → ¬ bootPressAccepted s j1 →
          modePressAccepted (run fm s [j1]) j2 → ¬ bootPressAccepted (run fm s [j1]) j2 →
          modePressAccepted (run fm s [j1, j2]) j3 → ¬ bootPressAccepted (run fm s [j1, j2]) j3 →
          modePressAccepted (run fm s [j1, j2, j3]) j4 →
          ¬ bootPressAccepted (run fm s [j1, j2, j3]) j4 →
          (run fm s [j1, j2, j3, j4]).activeLightingMode = s.activeLightingMode)
      ∧ (∀ (s : State) (i : Inputs), modePressAccepted s i →
          (loopModeButton (wrap32 i.currentMillis) i s).oled
            = some ("Mode:",
                modeLabel (loopModeButton (wrap32 i.currentMillis) i s).activeLightingMode)) := by
  have hi1 := hidle i1 (by simp)
  have hi2 := hidle i2 (by simp)
  have hi3 := hidle i3 (by simp)
  have hi4 := hidle i4 (by simp)
  have hq1 : ∀ j ∈ q1, j.modePin = .HIGH ∧ j.bootPin = .HIGH ∧ j.actionPin = .HIGH :=
    fun j hj => hq j (by simp [hj])
  have hq2 : ∀ j ∈ q2, j.modePin = .HIGH ∧ j.bootPin = .HIGH ∧ j.actionPin = .HIGH :=
    fun j hj => hq j (by simp [hj])
  have hq3 : ∀ j ∈ q3, j.modePin = .HIGH ∧ j.bootPin = .HIGH ∧ j.actionPin = .HIGH :=
    fun j hj => hq j (by simp [hj])
  have hq4 : ∀ j ∈ q4, j.modePin = .HIGH ∧ j.bootPin = .HIGH ∧ j.actionPin = .HIGH :=
    fun j hj => hq j (by simp [hj])
  have hp0 : setupDone.isButtonPressed = false := by decide
  have hm0 : setupDone.activeLightingMode = .MODE_OFF := by decide
  have hr0 : renders setupDone.trace = [("System:", "Ready"), ("Mode:", "All OFF")] := by decide
  obtain ⟨m1, p1, o1, r1⟩ := run_idle_then_press fm q1 i1 setupDone hq1 hp0 h1 hi1.1 hi1.2
  rw [hm0] at m1 o1 r1
  rw [hr0] at r1
  obtain ⟨m2, p2, o2, r2⟩ := run_idle_then_press fm q2 i2 _ hq2 p1 h2 hi2.1 hi2.2
  rw [m1] at m2 o2 r2
  rw [r1] at r2
  obtain ⟨m3, p3, o3, r3⟩ := run_idle_then_press fm q3 i3 _ hq3 p2 h3 hi3.1 hi3.2
  rw [m2] at m3 o3 r3
  rw [r2] at r3
  obtain ⟨m4, p4, o4, r4⟩ := run_idle_then_press fm q4 i4 _ hq4 p3 h4 hi4.1 hi4.2
  rw [m3] at m4 o4 r4
  rw [r3] at r4
  refine ⟨rfl, hr0, by decide, r1, o1, r2, o2, r3, o3, r4, o4, m4, ?_, ?_⟩
  · intro s j1 j2 j3 j4 a1 b1 a2 b2 a3 b3 a4 b4
    have f1 : run fm s [j1] = loop fm s j1 := rfl
    have f2 : run fm s [j1, j2] = loop fm (loop fm s j1) j2 := rfl
    have f3 : run fm s [j1, j2, j3] = loop fm (loop fm (loop fm s j1) j2) j3 := rfl
    have f4 : run fm s [j1, j2, j3, j4]
        = loop fm (loop fm (loop fm (loop fm s j1) j2) j3) j4 := rfl
    rw [f1] at a2 b2
    rw [f2] at a3 b3
    rw [f3] at a4 b4
    rw [f4, loop_activeLightingMode, if_neg b4, if_pos a4, loop_activeLightingMode, if_neg b3,
      if_pos a3, loop_activeLightingMode, if_neg b2, if_pos a2, loop_activeLightingMode,
      if_neg b1, if_pos a1, nextMode_four]
  · intro s i h
    unfold modePressAccepted at h
    simp only [loopModeButton_eq]
    rw [if_pos h, if_pos h]

theorem C9_setup_and_mode_cycle_texts_witness :
    renders (run realFade (run realFade (run realFade (run realFade setupDone
        ([idleAt 50] ++ [modePressAt 100])) ([idleAt 200, idleAt 250] ++ [modePressAt 300]))
        ([] ++ [modePressAt 500])) ([idleAt 600] ++ [modePressAt 700])).trace
      = [("System:", "Ready"), ("Mode:", "All OFF"), ("Mode:", "Alternate"), ("Mode:", "All ON"),
          ("Mode:", "PWM Fade"), ("Mode:", "All OFF")] :=
  (C9_setup_and_mode_cycle_texts realFade [idleAt 50] [idleAt 200, idleAt 250] [] [idleAt 600]
    (modePressAt 100) (modePressAt 300) (modePressAt 500) (modePressAt 700)
    (by decide) (by decide) (by decide) (by decide) (by decide) (by decide)).2.2.2.2.2.2.2.2.2.1

/-! ## Debounce gate (C11) -/

theorem loopModeButton_rejected (cm : Nat) (i : Inputs) (s : State)
    (h : ¬ (i.modePin = .LOW ∧ sub32 cm s.lastModeButtonPressTime > BUTTON_DEBOUNCE_DELAY)) :
    loopModeButton cm i s = s := by
  unfold loopModeButton
  by_cases hp : i.modePin = .LOW
  · rw [if_pos hp, if_neg (fun hd => h ⟨hp, hd⟩)]
  · rw [if_neg hp]

theorem loopBootButton_rejected (cm : Nat) (i : Inputs) (s : State)
    (h : ¬ (i.bootPin = .LOW ∧ sub32 cm s.lastBootButtonPressTime > BUTTON_DEBOUNCE_DELAY)) :
    loopBootButton cm i s = s := by
  unfold loopBootButton
  by_cases hp : i.bootPin = .LOW
  · rw [if_pos hp, if_neg (fun hd => h ⟨hp, hd⟩)]
  · rw [if_neg hp]

theorem loopModeButton_accepted_ne (cm : Nat) (i : Inputs) (s : State)
    (h : i.modePin = .LOW ∧ sub32 cm s.lastModeButtonPressTime > BUTTON_DEBOUNCE_DELAY) :
    loopModeButton cm i s ≠ s := by
  intro he
  have ht := congrArg (fun t => t.trace.length) he
  simp only [loopModeButton_eq] at ht
  rw [if_pos h] at ht
  have hpos : 0 < (modeEntryEvents (nextMode s.activeLightingMode)).length := by
    cases s.activeLightingMode <;> decide
  simp only [List.length_append, List.length_replicate] at ht
  omega

theorem loopBootButton_accepted_ne (cm : Nat) (i : Inputs) (s : State)
    (h : i.bootPin = .LOW ∧ sub32 cm s.lastBootButtonPressTime > BUTTON_DEBOUNCE_DELAY) :
    loopBootButton cm i s ≠ s := by
  intro he
  have ht := congrArg (fun t => t.trace.length) he
  simp only [loopBootButton_eq] at ht
  rw [if_pos h] at ht
  simp only [List.length_append, List.length_replicate, List.length_singleton] at ht
  omega

theorem preRender_lastBoot_after_mode (cm : Nat) (i : Inputs) (s : State) :
    (loopModeButton cm i s).lastBootButtonPressTime = s.lastBootButtonPressTime := by
  simp only [loopModeButton_eq]

theorem loop_mode_pin_high (fm : FadeMath) (s : State) (i : Inputs)
    (h : ¬ modePressAccepted s i) :
    loop fm s i = loop fm s { i with modePin := .HIGH } := by
  have h1 := loopModeButton_rejected (wrap32 i.currentMillis) i s h
  have h2 : loopModeButton (wrap32 i.currentMillis) { i with modePin := .HIGH } s = s :=
    loopModeButton_rejected _ _ _ (fun hc => Level.noConfusion hc.1)
  show delay 8 (loopLedModeBehavior fm (wrap32 i.currentMillis)
        (loopActionButton (wrap32 i.currentMillis) i
          (loopBootButton (wrap32 i.currentMillis) i
            (loopModeButton (wrap32 i.currentMillis) i s))))
      = delay 8 (loopLedModeBehavior fm (wrap32 i.currentMillis)
        (loopActionButton (wrap32 i.currentMillis) i
          (loopBootButton (wrap32 i.currentMillis) i
            (loopModeButton (wrap32 i.currentMillis) { i with modePin := .HIGH } s))))
  rw [h1, h2]

theorem loop_boot_pin_high (fm : FadeMath) (s : State) (i : Inputs)
    (h : ¬ bootPressAccepted s i) :
    loop fm s i = loop fm s { i with bootPin := .HIGH } := by
  have hb : ¬ (i.bootPin = .LOW ∧
      sub32 (wrap32 i.currentMillis)
        (loopModeButton (wrap32 i.currentMillis) i s).lastBootButtonPressTime
        > BUTTON_DEBOUNCE_DELAY) := by
    rw [preRender_lastBoot_after_mode]; exact h
  have h1 := loopBootButton_rejected (wrap32 i.currentMillis) i _ hb
  have h2 : loopBootButton (wrap32 i.currentMillis) { i with bootPin := .HIGH }
      (loopModeButton (wrap32 i.currentMillis) i s)
      = loopModeButton (wrap32 i.currentMillis) i s :=
    loopBootButton_rejected _ _ _ (fun hc => Level.noConfusion hc.1)
  show delay 8 (loopLedModeBehavior fm (wrap32 i.currentMillis)
        (loopActionButton (wrap32 i.currentMillis) i
          (loopBootButton (wrap32 i.currentMillis) i
            (loopModeButton (wrap32 i.currentMillis) i s))))
      = delay 8 (loopLedModeBehavior fm (wrap32 i.currentMillis)
        (loopActionButton (wrap32 i.currentMillis) i
          (loopBootButton (wrap32 i.currentMillis) { i with bootPin := .HIGH }
            (loopModeButton (wrap32 i.currentMillis) i s))))
  rw [h1, h2]

theorem sub32_zero_of_le (cm : Nat) (h : cm ≤ 50) : sub32 (wrap32 cm) 0 ≤ 50 := by
  unfold sub32 wrap32
  have h1 : cm % 2 ^ 32 = cm := Nat.mod_eq_of_lt (by omega)
  simp only [Nat.mod_mod, h1, Nat.zero_mod, Nat.sub_zero, Nat.add_mod_right]
  omega

/-- C11: with the mode button (resp. the boot button) reading LOW, the handler
acts (its output state differs from its input state) if and only if the 32-bit
difference `currentMillis - lastModeButtonPressTime` (resp.
`lastBootButtonPressTime`) exceeds 50.  When the button reads LOW and the
difference is at most 50 the handler returns its input state unchanged and the
whole pass equals the pass with that button HIGH; this covers every pass that
starts in the first 50 ms after power-on, when both timestamps are 0. -/
theorem C11_debounce_gate (fm : FadeMath) (s : State) (i : Inputs) :
    (i.modePin = .LOW →
        (loopModeButton (wrap32 i.currentMillis) i s ≠ s ↔
          sub32 (wrap32 i.currentMillis) s.lastModeButtonPressTime > BUTTON_DEBOUNCE_DELAY))
      ∧ (i.bootPin = .LOW →
        (loopBootButton (wrap32 i.currentMillis) i s ≠ s ↔
          sub32 (wrap32 i.currentMillis) s.lastBootButtonPressTime > BUTTON_DEBOUNCE_DELAY))
      ∧ (i.modePin = .LOW →
        sub32 (wrap32 i.currentMillis) s.lastModeButtonPressTime ≤ 50 →
        loopModeButton (wrap32 i.currentMillis) i s = s
          ∧ loop fm s i = loop fm s { i with modePin := .HIGH })
      ∧ (i.bootPin = .LOW →
        sub32 (wrap32 i.currentMillis) s.lastBootButtonPressTime ≤ 50 →
        loopBootButton (wrap32 i.currentMillis) i (loopModeButton (wrap32 i.currentMillis) i s)
            = loopModeButton (wrap32 i.currentMillis) i s
          ∧ loop fm s i = loop fm s { i with bootPin := .HIGH })
      ∧ (i.currentMillis ≤ 50 → s.lastModeButtonPressTime = 0 →
        s.lastBootButtonPressTime = 0 →
        loop fm s i = loop fm s { i with modePin := .HIGH, bootPin := .HIGH }) := by
  have hdelay : BUTTON_DEBOUNCE_DELAY = 50 := rfl
  refine ⟨fun hp => ⟨fun hne => ?_, fun hd => loopModeButton_accepted_ne _ _ _ ⟨hp, hd⟩⟩,
    fun hp => ⟨fun hne => ?_, fun hd => loopBootButton_accepted_ne _ _ _ ⟨hp, hd⟩⟩,
    fun _ hd => ?_, fun _ hd => ?_, fun hc hm hb => ?_⟩
  · by_contra hd
    exact hne (loopModeButton_rejected _ _ _ (fun h => hd h.2))
  · by_contra hd
    exact hne (loopBootButton_rejected _ _ _ (fun h => hd h.2))
  · have hrej : ¬ modePressAccepted s i := by
      rintro ⟨-, h⟩
      rw [hdelay] at h
      omega
    exact ⟨loopModeButton_rejected _ _ _ hrej, loop_mode_pin_high fm s i hrej⟩
  · have hrej : ¬ bootPressAccepted s i := by
      rintro ⟨-, h⟩
      rw [hdelay] at h
      omega
    refine ⟨loopBootButton_rejected _ _ _ ?_, loop_boot_pin_high fm s i hrej⟩
    rw [preRender_lastBoot_after_mode]
    exact hrej
  · have h50 := sub32_zero_of_le i.currentMillis hc
    have hrej1 : ¬ modePressAccepted s i := by
      rintro ⟨-, h⟩
      rw [hm, hdelay] at h
      omega
    have hrej2 : ¬ bootPressAccepted s { i with modePin := .HIGH } := by
      rintro ⟨-, h⟩
      rw [hb, hdelay] at h
      have h2 : sub32 (wrap32 i.currentMillis) 0 > 50 := h
      omega
    rw [loop_mode_pin_high fm s i hrej1, loop_boot_pin_high fm s _ hrej2]

theorem C11_debounce_gate_witness :
    loop realFade setupDone { idleAt 30 with modePin := .LOW, bootPin := .LOW }
      = loop realFade setupDone (idleAt 30) :=
  (C11_debounce_gate realFade setupDone { idleAt 30 with modePin := .LOW, bootPin := .LOW }).2.2.2.2
    (by decide) (by decide) (by decide)

/-! ## Long press boundary (C12) -/

theorem preAction_fields (cm : Nat) (i : Inputs) (s : State) :
    (loopBootButton cm i (loopModeButton cm i s)).isButtonPressed = s.isButtonPressed
      ∧ (loopBootButton cm i (loopModeButton cm i s)).isLongPressHandled = s.isLongPressHandled
      ∧ (loopBootButton cm i (loopModeButton cm i s)).buttonPressStartTime
          = s.buttonPressStartTime
      ∧ (loopBootButton cm i (loopModeButton cm i s)).manualLEDState = s.manualLEDState := by
  simp only [loopBootButton_eq, loopModeButton_eq, and_self]

/-- The action section on a release that is not a short press: only
`isButtonPressed` is cleared. -/
theorem loopActionButton_release_only (cm : Nat) (i : Inputs) (t : State)
    (hpin : i.actionPin = .HIGH)
    (hno : ¬ (t.isLongPressHandled = false ∧ sub32 cm t.buttonPressStartTime < 1500)) :
    loopActionButton cm i t = { t with isButtonPressed := false } := by
  have h1 : ¬ (i.actionPin = Level.HIGH ∧ t.isButtonPressed = true ∧
      t.isLongPressHandled = false ∧ sub32 cm t.buttonPressStartTime < 1500) :=
    fun h => hno ⟨h.2.2.1, h.2.2.2⟩
  have h2 : ¬ (i.actionPin = Level.LOW ∧ t.isButtonPressed = true ∧
      t.isLongPressHandled = false ∧ sub32 cm t.buttonPressStartTime ≥ 1500) := by
    rintro ⟨h, -⟩
    rw [hpin] at h
    exact Level.noConfusion h
  have h3 : ¬ (i.actionPin = Level.LOW ∧ t.isButtonPressed = false) := by
    rintro ⟨h, -⟩
    rw [hpin] at h
    exact Level.noConfusion h
  have h4 : ¬ (i.actionPin = Level.LOW ∧ t.isLongPressHandled = false ∧
      sub32 cm t.buttonPressStartTime ≥ 1500) := by
    rintro ⟨h, -⟩
    rw [hpin] at h
    exact Level.noConfusion h
  have h5 : ¬ (i.actionPin = Level.LOW) := by
    rw [hpin]
    exact Level.noConfusion
  rw [loopActionButton_eq]
  simp only [if_neg h1, if_neg h2, if_neg h3, if_neg h4, if_neg h5]

/-- The action section while the button is held and the long press is due:
the long-press action runs and the handled flag is set. -/
theorem loopActionButton_long (cm : Nat) (i : Inputs) (t : State)
    (hpin : i.actionPin = .LOW) (hp : t.isButtonPressed = true)
    (hl : t.isLongPressHandled = false) (hd : sub32 cm t.buttonPressStartTime ≥ 1500) :
    loopActionButton cm i t
      = { t with isLongPressHandled := true,
                 oled := some ("Action:", "Long Press"),
                 trace := t.trace ++ longPressEvents } := by
  have h1 : ¬ (i.actionPin = Level.HIGH ∧ t.isButtonPressed = true ∧
      t.isLongPressHandled = false ∧ sub32 cm t.buttonPressStartTime < 1500) := by
    rintro ⟨h, -⟩
    rw [hpin] at h
    exact Level.noConfusion h
  have h2 : i.actionPin = Level.LOW ∧ t.isButtonPressed = true ∧
      t.isLongPressHandled = false ∧ sub32 cm t.buttonPressStartTime ≥ 1500 :=
    ⟨hpin, hp, hl, hd⟩
  have h3 : ¬ (i.actionPin = Level.LOW ∧ t.isButtonPressed = false) := by
    rintro ⟨-, h⟩
    rw [hp] at h
    exact Bool.noConfusion h
  have h4 : i.actionPin = Level.LOW ∧ t.isLongPressHandled = false ∧
      sub32 cm t.buttonPressStartTime ≥ 1500 := ⟨hpin, hl, hd⟩
  rw [loopActionButton_eq]
  simp only [if_neg h1, if_pos h2, if_neg h3, if_pos h4, if_pos hpin]
  rw [hp]

/-- C12: a hold of exactly 1500 ms is long.  A pass that samples the action
button LOW with a press recorded, the handled flag clear and
`currentMillis - buttonPressStartTime = 1500` runs the long-press action (display
text, 2500 Hz tone for 300 ms) and sets the handled flag.  A pass that samples
the release with measured duration exactly 1500 does not toggle: the action
section only clears `isButtonPressed`, so override and `manualLEDState` are as
the button handlers left them. -/
theorem C12_exactly_1500_is_long (fm : FadeMath) (s : State) (i : Inputs)
    (hp : s.isButtonPressed = true)
    (hd : sub32 (wrap32 i.currentMillis) s.buttonPressStartTime = 1500) :
    (i.actionPin = .LOW → s.isLongPressHandled = false →
        (loop fm s i).isLongPressHandled = true
          ∧ toneCount (loop fm s i).trace = toneCount s.trace + 1
          ∧ longPressTextCount (loop fm s i).trace = longPressTextCount s.trace + 1
          ∧ (loopActionButton (wrap32 i.currentMillis) i
              (loopBootButton (wrap32 i.currentMillis) i
                (loopModeButton (wrap32 i.currentMillis) i s))).trace
            = (loopBootButton (wrap32 i.currentMillis) i
                (loopModeButton (wrap32 i.currentMillis) i s)).trace ++
              [Event.display "Action:" "Long Press",
                Event.ledcWriteTone BUZZER_PWM_CHANNEL 2500, Event.delay 300,
                Event.ledcWriteTone BUZZER_PWM_CHANNEL 0])
      ∧ (i.actionPin = .HIGH →
        loopActionButton (wrap32 i.currentMillis) i
            (loopBootButton (wrap32 i.currentMillis) i
              (loopModeButton (wrap32 i.currentMillis) i s))
          = { loopBootButton (wrap32 i.currentMillis) i
                (loopModeButton (wrap32 i.currentMillis) i s) with isButtonPressed := false }
        ∧ ¬ shortPressReleased s i
        ∧ (loop fm s i).manualLEDState = s.manualLEDState
        ∧ (loop fm s i).isManualControlEnabled
            = (loopBootButton (wrap32 i.currentMillis) i
                (loopModeButton (wrap32 i.currentMillis) i s)).isManualControlEnabled) := by
  obtain ⟨f1, f2, f3, -⟩ := preAction_fields (wrap32 i.currentMillis) i s
  constructor
  · intro hpin hl
    have hcond : i.actionPin = .LOW ∧ s.isButtonPressed = true ∧ s.isLongPressHandled = false
        ∧ sub32 (wrap32 i.currentMillis) s.buttonPressStartTime ≥ 1500 :=
      ⟨hpin, hp, hl, by omega⟩
    have hlong := loopActionButton_long (wrap32 i.currentMillis) i
      (loopBootButton (wrap32 i.currentMillis) i (loopModeButton (wrap32 i.currentMillis) i s))
      hpin (f1.trans hp) (f2.trans hl) (by rw [f3]; omega)
    refine ⟨?_, ?_, ?_, ?_⟩
    · rw [loop_isLongPressHandled, if_neg, if_pos ⟨hpin, hl, hcond.2.2.2⟩]
      rintro ⟨-, h⟩
      rw [hp] at h
      exact Bool.noConfusion h
    · unfold toneCount
      rw [count_loop_trace _ (Or.inl rfl), if_pos hcond]
    · unfold longPressTextCount
      rw [count_loop_trace _ (Or.inr rfl), if_pos hcond]
    · rw [hlong]
      rfl
  · intro hpin
    have hns : ¬ shortPressReleased s i := by
      rintro ⟨-, -, -, h⟩
      omega
    have hrel := loopActionButton_release_only (wrap32 i.currentMillis) i
      (loopBootButton (wrap32 i.currentMillis) i (loopModeButton (wrap32 i.currentMillis) i s))
      hpin (by rw [f3]; rintro ⟨-, h⟩; omega)
    refine ⟨hrel, hns, ?_, ?_⟩
    · rw [loop_manualLEDState, if_neg hns]
    · rw [loop_isManualControlEnabled]
      unfold preRender
      rw [hrel]

theorem C12_exactly_1500_is_long_witness :
    (loop realFade (loop realFade setupDone (actionHeldAt 100))
        (actionHeldAt 1600)).isLongPressHandled = true
      ∧ (loop realFade (loop realFade setupDone (actionHeldAt 100))
        (idleAt 1600)).manualLEDState = false :=
  ⟨((C12_exactly_1500_is_long realFade (loop realFade setupDone (actionHeldAt 100))
      (actionHeldAt 1600) (by decide) (by decide)).1 (by decide) (by decide)).1,
   ((C12_exactly_1500_is_long realFade (loop realFade setupDone (actionHeldAt 100))
      (idleAt 1600) (by decide) (by decide)).2 (by decide)).2.2.1.trans (by decide)⟩

/-! ## Release after a long hold (C18, C19) -/

/-- C18: when the long press was already handled during the hold, the pass that
samples the release only clears `isButtonPressed`: the action section returns
its input state with that one field changed, so override, `manualLEDState`, the
three LED duties, the mode, the display text and the trace (no buzzer call) are
as the button handlers left them, for every measured duration. -/
theorem C18_release_after_long_press (fm : FadeMath) (s : State) (i : Inputs)
    (hp : s.isButtonPressed = true) (hl : s.isLongPressHandled = true)
    (hpin : i.actionPin = .HIGH) :
    loopActionButton (wrap32 i.currentMillis) i
        (loopBootButton (wrap32 i.currentMillis) i
          (loopModeButton (wrap32 i.currentMillis) i s))
      = { loopBootButton (wrap32 i.currentMillis) i
            (loopModeButton (wrap32 i.currentMillis) i s) with isButtonPressed := false }
      ∧ (loopBootButton (wrap32 i.currentMillis) i
          (loopModeButton (wrap32 i.currentMillis) i s)).isButtonPressed = true
      ∧ (loop fm s i).isButtonPressed = false
      ∧ (loop fm s i).manualLEDState = s.manualLEDState
      ∧ (loop fm s i).isLongPressHandled = true
      ∧ toneCount (loop fm s i).trace = toneCount s.trace
      ∧ longPressTextCount (loop fm s i).trace = longPressTextCount s.trace := by
  obtain ⟨f1, f2, -, -⟩ := preAction_fields (wrap32 i.currentMillis) i s
  have hnl : ¬ (i.actionPin = .LOW ∧ s.isButtonPressed = true ∧ s.isLongPressHandled = false
      ∧ sub32 (wrap32 i.currentMillis) s.buttonPressStartTime ≥ 1500) := by
    rintro ⟨h, -⟩
    rw [hpin] at h
    exact Level.noConfusion h
  have hns : ¬ shortPressReleased s i := by
    rintro ⟨-, -, h, -⟩
    rw [hl] at h
    exact Bool.noConfusion h
  refine ⟨loopActionButton_release_only _ _ _ hpin ?_, f1.trans hp, ?_, ?_, ?_, ?_, ?_⟩
  · rw [f2, hl]
    rintro ⟨h, -⟩
    exact Bool.noConfusion h
  · rw [loop_isButtonPressed, hpin]
    rfl
  · rw [loop_manualLEDState, if_neg hns]
  · rw [loop_isLongPressHandled, if_neg, if_neg, hl]
    · rintro ⟨h, -⟩
      rw [hpin] at h
      exact Level.noConfusion h
    · rintro ⟨h, -⟩
      rw [hpin] at h
      exact Level.noConfusion h
  · unfold toneCount
    rw [count_loop_trace _ (Or.inl rfl), if_neg hnl, Nat.add_zero]
  · unfold longPressTextCount
    rw [count_loop_trace _ (Or.inr rfl), if_neg hnl, Nat.add_zero]

theorem C18_release_after_long_press_witness :
    (run realFade setupDone [actionHeldAt 100, actionHeldAt 1700]).isLongPressHandled = true
      ∧ (loop realFade (run realFade setupDone [actionHeldAt 100, actionHeldAt 1700])
          (idleAt 2100)).isButtonPressed = false
      ∧ (loop realFade (run realFade setupDone [actionHeldAt 100, actionHeldAt 1700])
          (idleAt 2100)).manualLEDState = false :=
  ⟨by decide,
    (C18_release_after_long_press realFade
      (run realFade setupDone [actionHeldAt 100, actionHeldAt 1700]) (idleAt 2100)
      (by decide) (by decide) (by decide)).2.2.1,
    (C18_release_after_long_press realFade
      (run realFade setupDone [actionHeldAt 100, actionHeldAt 1700]) (idleAt 2100)
      (by decide) (by decide) (by decide)).2.2.2.1.trans (by decide)⟩

/-- C19: a press can be lost.  From a state with a press recorded and the
handled flag clear, a pass that samples the action button HIGH with measured
duration `currentMillis - buttonPressStartTime >= 1500` runs neither the
long-press action nor the short-press toggle: the action section only clears
`isButtonPressed`, leaving override, `manualLEDState`, the LED duties, the
display text, the trace and the handled flag as the button handlers left
them. -/
theorem C19_late_release_is_lost (fm : FadeMath) (s : State) (i : Inputs)
    (hp : s.isButtonPressed = true) (hl : s.isLongPressHandled = false)
    (hpin : i.actionPin = .HIGH)
    (hd : sub32 (wrap32 i.currentMillis) s.buttonPressStartTime ≥ 1500) :
    loopActionButton (wrap32 i.currentMillis) i
        (loopBootButton (wrap32 i.currentMillis) i
          (loopModeButton (wrap32 i.currentMillis) i s))
      = { loopBootButton (wrap32 i.currentMillis) i
            (loopModeButton (wrap32 i.currentMillis) i s) with isButtonPressed := false }
      ∧ (loopBootButton (wrap32 i.currentMillis) i
          (loopModeButton (wrap32 i.currentMillis) i s)).isButtonPressed = true
      ∧ (loop fm s i).isButtonPressed = false
      ∧ (loop fm s i).isLongPressHandled = false
      ∧ (loop fm s i).manualLEDState = s.manualLEDState
      ∧ ¬ shortPressReleased s i
      ∧ toneCount (loop fm s i).trace = toneCount s.trace
      ∧ longPressTextCount (loop fm s i).trace = longPressTextCount s.trace := by
  obtain ⟨f1, -, f3, -⟩ := preAction_fields (wrap32 i.currentMillis) i s
  have hnl : ¬ (i.actionPin = .LOW ∧ s.isButtonPressed = true ∧ s.isLongPressHandled = false
      ∧ sub32 (wrap32 i.currentMillis) s.buttonPressStartTime ≥ 1500) := by
    rintro ⟨h, -⟩
    rw [hpin] at h
    exact Level.noConfusion h
  have hns : ¬ shortPressReleased s i := by
    rintro ⟨-, -, -, h⟩
    omega
  refine ⟨loopActionButton_release_only _ _ _ hpin ?_, f1.trans hp, ?_, ?_, ?_, hns, ?_, ?_⟩
  · rw [f3]
    rintro ⟨-, h⟩
    omega
  · rw [loop_isButtonPressed, hpin]
    rfl
  · rw [loop_isLongPressHandled, if_neg, if_neg, hl]
    · rintro ⟨h, -⟩
      rw [hpin] at h
      exact Level.noConfusion h
    · rintro ⟨h, -⟩
      rw [hpin] at h
      exact Level.noConfusion h
  · rw [loop_manualLEDState, if_neg hns]
  · unfold toneCount
    rw [count_loop_trace _ (Or.inl rfl), if_neg hnl, Nat.add_zero]
  · unfold longPressTextCount
    rw [count_loop_trace _ (Or.inr rfl), if_neg hnl, Nat.add_zero]

theorem C19_late_release_is_lost_witness :
    (loop realFade (loop realFade setupDone (actionHeldAt 100))
        { modePressAt 300 with modeHoldPolls := 200, modeReleaseMillis := 2320, actionPin := .LOW }).isButtonPressed
        = true
      ∧ (loop realFade
          (loop realFade (loop realFade setupDone (actionHeldAt 100))
            { modePressAt 300 with modeHoldPolls := 200, modeReleaseMillis := 2320, actionPin := .LOW })
          (idleAt 2330)).isManualControlEnabled = false
      ∧ toneCount (loop realFade
          (loop realFade (loop realFade setupDone (actionHeldAt 100))
            { modePressAt 300 with modeHoldPolls := 200, modeReleaseMillis := 2320, actionPin := .LOW })
          (idleAt 2330)).trace
        = toneCount (loop realFade (loop realFade setupDone (actionHeldAt 100))
            { modePressAt 300 with modeHoldPolls := 200, modeReleaseMillis := 2320, actionPin := .LOW }).trace :=
  ⟨by decide, by decide,
    (C19_late_release_is_lost realFade
      (loop realFade (loop realFade setupDone (actionHeldAt 100))
        { modePressAt 300 with modeHoldPolls := 200, modeReleaseMillis := 2320, actionPin := .LOW })
      (idleAt 2330) (by decide) (by decide) (by decide) (by decide)).2.2.2.2.2.2.1⟩

/-! ## Boot reset, mode frame and ALTERNATE entry (C13, C14, C16) -/

/-- C13, the code at the failing input: after power-on a short press (pressed
at 100, released at 200) turns the LEDs on under manual override; the boot
press accepted at 300, with the action button idle, sets the mode OFF, clears
the override and writes duty 0 to the three channels, but leaves
`manualLEDState` true, not false as after setup.  The next short press (pressed
at 500, released at 600) therefore negates it to false and writes 0: the LEDs
stay off and the display shows "Short: OFF", while the same press right after
setup turns the LEDs on. -/
theorem C13_boot_press_keeps_manual_level :
    setupDone.manualLEDState = false
      ∧ bootPressAccepted (run realFade setupDone [actionHeldAt 100, idleAt 200]) (bootPressAt 300)
      ∧ (run realFade setupDone
          [actionHeldAt 100, idleAt 200, bootPressAt 300]).activeLightingMode = .MODE_OFF
      ∧ (run realFade setupDone
          [actionHeldAt 100, idleAt 200, bootPressAt 300]).isManualControlEnabled = false
      ∧ (run realFade setupDone
          [actionHeldAt 100, idleAt 200, bootPressAt 300]).ledRed = 0
      ∧ (run realFade setupDone
          [actionHeldAt 100, idleAt 200, bootPressAt 300]).manualLEDState = true
      ∧ (run realFade setupDone
          [actionHeldAt 100, idleAt 200, bootPressAt 300, actionHeldAt 500, idleAt 600]).ledRed
          = 0
      ∧ (run realFade setupDone
          [actionHeldAt 100, idleAt 200, bootPressAt 300, actionHeldAt 500, idleAt 600]).oled
          = some ("Action:", "Short: OFF")
      ∧ (run realFade setupDone [actionHeldAt 500, idleAt 600]).ledRed = 255
      ∧ (run realFade setupDone [actionHeldAt 500, idleAt 600]).oled
          = some ("Action:", "Short: ON") := by
  decide

theorem nextMode_ne (m : LightingMode) : nextMode m ≠ m := by
  cases m <;> decide

/-- C14: a pass in which neither a mode press nor a boot press is accepted
(button HIGH or rejected by the debounce test) ends with the mode it started
with, for every action-button level, press duration and clock reading; and a
pass that changes the mode accepted one of the two presses. -/
theorem C14_mode_changes_only_on_accepted_press (fm : FadeMath) (s : State) (i : Inputs) :
    (¬ modePressAccepted s i → ¬ bootPressAccepted s i →
        (loop fm s i).activeLightingMode = s.activeLightingMode)
      ∧ ((loop fm s i).activeLightingMode ≠ s.activeLightingMode →
        modePressAccepted s i ∨ bootPressAccepted s i)
      ∧ (loopActionButton (wrap32 i.currentMillis) i s).activeLightingMode
          = s.activeLightingMode
      ∧ (loopLedModeBehavior fm (wrap32 i.currentMillis) s).activeLightingMode
          = s.activeLightingMode := by
  have h1 : ¬ modePressAccepted s i → ¬ bootPressAccepted s i →
      (loop fm s i).activeLightingMode = s.activeLightingMode := by
    intro hm hb
    rw [loop_activeLightingMode, if_neg hb, if_neg hm]
  refine ⟨h1, fun hne => ?_, ?_, ?_⟩
  · by_contra hc
    exact hne (h1 (fun h => hc (Or.inl h)) (fun h => hc (Or.inr h)))
  · simp only [loopActionButton_eq]
  · simp only [loopLedModeBehavior_eq]

theorem C14_mode_changes_only_on_accepted_press_witness :
    (loop realFade (run realFade setupDone [modePressAt 100, actionHeldAt 160])
        { idleAt 190 with modePin := .LOW }).activeLightingMode = .MODE_ALTERNATE :=
  ((C14_mode_changes_only_on_accepted_press realFade
      (run realFade setupDone [modePressAt 100, actionHeldAt 160])
      { idleAt 190 with modePin := .LOW }).1 (by decide) (by decide)).trans (by decide)

/-- C16, the code at the failing input: the mode press accepted in the pass
that starts at clock reading 100 enters ALTERNATE with `millis()` reading 120
inside `updateLightingMode`, so `ledBlinkTimer` is 120 and the flag is cleared.
The renderer of the same pass computes `currentMillis - ledBlinkTimer` as
100 - 120 modulo 2^32 = 4294967276, which is at least 400: it toggles the flag
on, lights the green LED and sets `ledBlinkTimer` back to 100.  The pass ends
with the flag on, 0 ms after entry. -/
theorem C16_entry_pass_toggles_at_once :
    modePressAccepted setupDone (modePressAt 100)
      ∧ (modePressAt 100).currentMillis = 100 ∧ (modePressAt 100).modeEntryMillis = 120
      ∧ (loopModeButton 100 (modePressAt 100) setupDone).activeLightingMode = .MODE_ALTERNATE
      ∧ (loopModeButton 100 (modePressAt 100) setupDone).ledBlinkTimer = 120
      ∧ (loopModeButton 100 (modePressAt 100) setupDone).isBlinkOn = false
      ∧ sub32 100 120 = 4294967276
      ∧ (loop realFade setupDone (modePressAt 100)).activeLightingMode = .MODE_ALTERNATE
      ∧ (loop realFade setupDone (modePressAt 100)).isBlinkOn = true
      ∧ (loop realFade setupDone (modePressAt 100)).ledBlinkTimer = 100
      ∧ (loop realFade setupDone (modePressAt 100)).ledGreen = 255 := by
  decide

/-! ## Static modes OFF and ALL_ON (C15) -/

theorem ledWrites_append (a b : List Event) :
    ledWrites (a ++ b) = ledWrites a ++ ledWrites b := by
  induction a with
  | nil => rfl
  | cons e a ih => cases e <;> simp [ledWrites, ih]

theorem staticInv_preRender (s : State) (i : Inputs) (h : StaticInv s) :
    StaticInv (preRender s i) := by
  obtain ⟨hoff, hon⟩ := h
  unfold StaticInv
  simp only [preRender, loopActionButton_eq, loopBootButton_eq, loopModeButton_eq]
  by_cases hS : i.actionPin = Level.HIGH ∧ s.isButtonPressed = true ∧
      s.isLongPressHandled = false ∧
      sub32 (wrap32 i.currentMillis) s.buttonPressStartTime < 1500
  · simp only [if_pos hS]
    exact ⟨fun _ hc => Bool.noConfusion hc, fun _ hc => Bool.noConfusion hc⟩
  · simp only [if_neg hS]
    by_cases hB : i.bootPin = Level.LOW ∧
        sub32 (wrap32 i.currentMillis) s.lastBootButtonPressTime > BUTTON_DEBOUNCE_DELAY
    · simp only [if_pos hB]
      exact ⟨fun _ _ => ⟨trivial, trivial, trivial⟩, fun hc => LightingMode.noConfusion hc⟩
    · simp only [if_neg hB]
      by_cases hA : i.modePin = Level.LOW ∧
          sub32 (wrap32 i.currentMillis) s.lastModeButtonPressTime > BUTTON_DEBOUNCE_DELAY
      · simp only [if_pos hA]
        constructor
        · intro hm _
          simp only [if_pos hm, and_self]
        · intro hm _
          have hne : ¬ (nextMode s.activeLightingMode = .MODE_OFF) := by
            rw [hm]
            exact LightingMode.noConfusion
          simp only [if_neg hne, if_pos hm, and_self]
      · simp only [if_neg hA]
        exact ⟨hoff, hon⟩

theorem staticInv_loop (fm : FadeMath) (s : State) (i : Inputs) (h : StaticInv s) :
    StaticInv (loop fm s i) := by
  obtain ⟨hoff, hon⟩ := staticInv_preRender s i h
  unfold StaticInv
  simp only [loop, delay, loopLedModeBehavior_eq]
  generalize preRender s i = p at hoff hon ⊢
  constructor
  · intro hm ho
    have hT : ¬ (p.isManualControlEnabled = false ∧ p.activeLightingMode = .MODE_ALTERNATE
        ∧ sub32 (wrap32 i.currentMillis) p.ledBlinkTimer ≥ LED_BLINK_INTERVAL) := by
      rintro ⟨-, h, -⟩
      rw [hm] at h
      exact LightingMode.noConfusion h
    have hF : ¬ (p.isManualControlEnabled = false ∧ p.activeLightingMode = .MODE_FADE) := by
      rintro ⟨-, h⟩
      rw [hm] at h
      exact LightingMode.noConfusion h
    simp only [if_neg hT, if_neg hF]
    exact hoff hm ho
  · intro hm ho
    have hT : ¬ (p.isManualControlEnabled = false ∧ p.activeLightingMode = .MODE_ALTERNATE
        ∧ sub32 (wrap32 i.currentMillis) p.ledBlinkTimer ≥ LED_BLINK_INTERVAL) := by
      rintro ⟨-, h, -⟩
      rw [hm] at h
      exact LightingMode.noConfusion h
    have hF : ¬ (p.isManualControlEnabled = false ∧ p.activeLightingMode = .MODE_FADE) := by
      rintro ⟨-, h⟩
      rw [hm] at h
      exact LightingMode.noConfusion h
    simp only [if_neg hT, if_neg hF]
    exact hon hm ho

theorem reachable_staticInv (fm : FadeMath) (s : State) (h : Reachable fm s) :
    StaticInv s := by
  induction h with
  | boot s hs =>
    have : s = setupDone := by
      simp only [setup] at hs
      exact (Option.some.inj hs).symm
    rw [this]
    exact ⟨fun _ _ => by decide, fun hc => absurd hc (by decide)⟩
  | step s i _ ih => exact staticInv_loop fm s i ih

theorem ledWrites_loopActionButton (cm : Nat) (i : Inputs) (s : State)
    (hS : ¬ (i.actionPin = Level.HIGH ∧ s.isButtonPressed = true ∧
      s.isLongPressHandled = false ∧ sub32 cm s.buttonPressStartTime < 1500)) :
    ledWrites (loopActionButton cm i s).trace = ledWrites s.trace := by
  have hl : ledWrites longPressEvents = [] := rfl
  simp only [loopActionButton_eq, if_neg hS]
  split_ifs <;> simp only [ledWrites_append, hl, List.append_nil]

theorem ledWrites_renderer_static (fm : FadeMath) (cm : Nat) (p : State)
    (hm : p.activeLightingMode = .MODE_OFF ∨ p.activeLightingMode = .MODE_ALL_ON) :
    ledWrites (loopLedModeBehavior fm cm p).trace = ledWrites p.trace := by
  have hT : ¬ (p.isManualControlEnabled = false ∧ p.activeLightingMode = .MODE_ALTERNATE
      ∧ sub32 cm p.ledBlinkTimer ≥ LED_BLINK_INTERVAL) := by
    rintro ⟨-, h, -⟩
    rcases hm with hm | hm <;> rw [hm] at h <;> exact LightingMode.noConfusion h
  have hF : ¬ (p.isManualControlEnabled = false ∧ p.activeLightingMode = .MODE_FADE) := by
    rintro ⟨-, h⟩
    rcases hm with hm | hm <;> rw [hm] at h <;> exact LightingMode.noConfusion h
  simp only [loopLedModeBehavior_eq, if_neg hT, if_neg hF]

/-- A pass that accepts no press, performs no short-press toggle and renders a
static mode makes no `ledcWrite` call. -/
theorem ledWrites_loop_static (fm : FadeMath) (s : State) (i : Inputs)
    (hA : ¬ modePressAccepted s i) (hB : ¬ bootPressAccepted s i)
    (hS : ¬ shortPressReleased s i)
    (hm : s.activeLightingMode = .MODE_OFF ∨ s.activeLightingMode = .MODE_ALL_ON) :
    ledWrites (loop fm s i).trace = ledWrites s.trace := by
  have h1 : loopModeButton (wrap32 i.currentMillis) i s = s := loopModeButton_rejected _ _ _ hA
  have h2 : loopBootButton (wrap32 i.currentMillis) i s = s := loopBootButton_rejected _ _ _ hB
  have hpm : (loopActionButton (wrap32 i.currentMillis) i s).activeLightingMode
      = s.activeLightingMode := by
    simp only [loopActionButton_eq]
  have h8 : ledWrites [Event.delay 8] = [] := rfl
  unfold loop preRender
  simp only [h1, h2, delay, ledWrites_append, h8, List.append_nil]
  rw [ledWrites_renderer_static fm _ _ (by rw [hpm]; exact hm),
    ledWrites_loopActionButton _ _ _ hS]

theorem loop_manual_of_short (fm : FadeMath) (s : State) (i : Inputs)
    (h : shortPressReleased s i) : (loop fm s i).isManualControlEnabled = true := by
  unfold shortPressReleased at h
  simp only [loop_isManualControlEnabled, preRender, loopActionButton_eq, loopBootButton_eq,
    loopModeButton_eq]
  rw [if_pos h]

/-- C15 fails as stated: right after setup (mode OFF, override disabled) a
pass that accepts a boot press keeps the mode OFF and keeps override disabled,
and it writes the three LED channels again (duty 0), because the boot handler
calls `updateLightingMode(MODE_OFF)`. -/
theorem C15_counterexample :
    setupDone.activeLightingMode = .MODE_OFF ∧ setupDone.isManualControlEnabled = false
      ∧ bootPressAccepted setupDone (bootPressAt 100)
      ∧ (loop realFade setupDone (bootPressAt 100)).activeLightingMode = .MODE_OFF
      ∧ (loop realFade setupDone (bootPressAt 100)).isManualControlEnabled = false
      ∧ ledWrites (loop realFade setupDone (bootPressAt 100)).trace
          = ledWrites setupDone.trace
            ++ [(LED_RED_CHANNEL, 0), (LED_GREEN_CHANNEL, 0), (LED_YELLOW_CHANNEL, 0)] := by
  decide

/-- C15 (amended): in every reachable state with override disabled the three
duties are 0 in mode OFF and 255 in mode ALL_ON.  `updateLightingMode` writes
these levels when it enters the mode, and a later pass that accepts no boot
press, keeps the mode and keeps override disabled makes no `ledcWrite` call. -/
theorem C15_static_levels (fm : FadeMath) (s : State) (hr : Reachable fm s) :
    (s.activeLightingMode = .MODE_OFF → s.isManualControlEnabled = false →
        s.ledRed = 0 ∧ s.ledGreen = 0 ∧ s.ledYellow = 0)
      ∧ (s.activeLightingMode = .MODE_ALL_ON → s.isManualControlEnabled = false →
        s.ledRed = 255 ∧ s.ledGreen = 255 ∧ s.ledYellow = 255)
      ∧ (∀ (m : LightingMode) (now : Nat) (t : State),
          (updateLightingMode m now t).trace = t.trace ++ modeEntryEvents m)
      ∧ ledWrites (modeEntryEvents .MODE_OFF)
          = [(LED_RED_CHANNEL, 0), (LED_GREEN_CHANNEL, 0), (LED_YELLOW_CHANNEL, 0)]
      ∧ ledWrites (modeEntryEvents .MODE_ALL_ON)
          = [(LED_RED_CHANNEL, 255), (LED_GREEN_CHANNEL, 255), (LED_YELLOW_CHANNEL, 255)]
      ∧ ∀ i : Inputs,
          (s.activeLightingMode = .MODE_OFF ∨ s.activeLightingMode = .MODE_ALL_ON) →
          s.isManualControlEnabled = false →
          ¬ bootPressAccepted s i →
          (loop fm s i).activeLightingMode = s.activeLightingMode →
          (loop fm s i).isManualControlEnabled = false →
          ledWrites (loop fm s i).trace = ledWrites s.trace := by
  obtain ⟨hoff, hon⟩ := reachable_staticInv fm s hr
  refine ⟨hoff, hon, fun m now t => ?_, rfl, rfl, fun i hm _ hB hkeep ho => ?_⟩
  · rw [updateLightingMode_eq]
  · have hA : ¬ modePressAccepted s i := by
      intro hA
      rw [loop_activeLightingMode, if_neg hB, if_pos hA] at hkeep
      exact nextMode_ne _ hkeep
    have hS : ¬ shortPressReleased s i := by
      intro hS
      rw [loop_manual_of_short fm s i hS] at ho
      exact Bool.noConfusion ho
    exact ledWrites_loop_static fm s i hA hB hS hm

theorem C15_static_levels_witness :
    (run realFade setupDone [modePressAt 100, modePressAt 300]).activeLightingMode = .MODE_ALL_ON
      ∧ (run realFade setupDone [modePressAt 100, modePressAt 300]).ledRed = 255
      ∧ (run realFade setupDone [modePressAt 100, modePressAt 300]).ledGreen = 255
      ∧ (run realFade setupDone [modePressAt 100, modePressAt 300]).ledYellow = 255 :=
  ⟨by decide,
    (C15_static_levels realFade (run realFade setupDone [modePressAt 100, modePressAt 300])
      (Reachable.step _ _ (Reachable.step _ _ (Reachable.boot _ rfl)))).2.1
      (by decide) (by decide)⟩

/-! ## FADE ranges (C17) -/

theorem sinDuty_int_range (x : ℝ) :
    0 ≤ truncToInt ((Real.sin x + 1) / 2 * 255)
      ∧ truncToInt ((Real.sin x + 1) / 2 * 255) ≤ 255
      ∧ truncToInt ((Real.sin x + 1) / 2 * 255) = ⌊255 * (Real.sin x + 1) / 2⌋
      ∧ toU32 (truncToInt ((Real.sin x + 1) / 2 * 255)) ≤ 255 := by
  obtain ⟨h0, h1⟩ := sinDuty_range x
  have hconv : 255 * (Real.sin x + 1) / 2 = (Real.sin x + 1) / 2 * 255 := by ring
  have ht := truncToInt_of_nonneg _ h0
  have hf0 : 0 ≤ ⌊(Real.sin x + 1) / 2 * 255⌋ := Int.floor_nonneg.mpr h0
  have hf1 : ⌊(Real.sin x + 1) / 2 * 255⌋ ≤ 255 := by
    have : ⌊(Real.sin x + 1) / 2 * 255⌋ ≤ ⌊(255 : ℝ)⌋ := Int.floor_mono h1
    simpa using this
  have hu := toU32_truncToInt _ h0 h1
  refine ⟨by rw [ht]; exact hf0, by rw [ht]; exact hf1, by rw [ht, hconv], ?_⟩
  have : ((toU32 (truncToInt ((Real.sin x + 1) / 2 * 255)) : ℕ) : ℤ) ≤ 255 := by
    rw [hu]; exact hf1
  exact_mod_cast this

/-- C17: for every pair of clock values the elapsed time of the FADE renderer,
`(currentMillis - ledFadeTimer mod 2^32) mod 2000`, is below 2000, the phase
`elapsed / 2000` lies in [0, 1), and each of the three duties, the truncation
of `255 * (sin(2*pi*(phase + offset)) + 1) / 2` over the reals, is an integer
between 0 and 255, also after the conversion to the unsigned duty argument; so
every pass that ends in FADE with override disabled leaves duties of at most
255. -/
theorem C17_fade_ranges (currentMillis ledFadeTimer : Nat) :
    sub32 currentMillis ledFadeTimer % 2000 < 2000
      ∧ (0 : ℝ) ≤ ((sub32 currentMillis ledFadeTimer % 2000 : ℕ) : ℝ) / 2000
      ∧ ((sub32 currentMillis ledFadeTimer % 2000 : ℕ) : ℝ) / 2000 < 1
      ∧ (realFade.redDuty (sub32 currentMillis ledFadeTimer % 2000)
            = ⌊255 * (Real.sin (2 * Real.pi *
                (((sub32 currentMillis ledFadeTimer % 2000 : ℕ) : ℝ) / 2000 + 0)) + 1) / 2⌋
          ∧ 0 ≤ realFade.redDuty (sub32 currentMillis ledFadeTimer % 2000)
          ∧ realFade.redDuty (sub32 currentMillis ledFadeTimer % 2000) ≤ 255
          ∧ toU32 (realFade.redDuty (sub32 currentMillis ledFadeTimer % 2000)) ≤ 255)
      ∧ (realFade.greenDuty (sub32 currentMillis ledFadeTimer % 2000)
            = ⌊255 * (Real.sin (2 * Real.pi *
                (((sub32 currentMillis ledFadeTimer % 2000 : ℕ) : ℝ) / 2000 + 1 / 3)) + 1) / 2⌋
          ∧ 0 ≤ realFade.greenDuty (sub32 currentMillis ledFadeTimer % 2000)
          ∧ realFade.greenDuty (sub32 currentMillis ledFadeTimer % 2000) ≤ 255
          ∧ toU32 (realFade.greenDuty (sub32 currentMillis ledFadeTimer % 2000)) ≤ 255)
      ∧ (realFade.yellowDuty (sub32 currentMillis ledFadeTimer % 2000)
            = ⌊255 * (Real.sin (2 * Real.pi *
                (((sub32 currentMillis ledFadeTimer % 2000 : ℕ) : ℝ) / 2000 + 2 / 3)) + 1) / 2⌋
          ∧ 0 ≤ realFade.yellowDuty (sub32 currentMillis ledFadeTimer % 2000)
          ∧ realFade.yellowDuty (sub32 currentMillis ledFadeTimer % 2000) ≤ 255
          ∧ toU32 (realFade.yellowDuty (sub32 currentMillis ledFadeTimer % 2000)) ≤ 255)
      ∧ ∀ (s : State) (i : Inputs),
          (loop realFade s i).activeLightingMode = .MODE_FADE →
          (loop realFade s i).isManualControlEnabled = false →
          (loop realFade s i).ledRed ≤ 255 ∧ (loop realFade s i).ledGreen ≤ 255
            ∧ (loop realFade s i).ledYellow ≤ 255 := by
  have he : sub32 currentMillis ledFadeTimer % 2000 < 2000 := Nat.mod_lt _ (by norm_num)
  have hc : ((sub32 currentMillis ledFadeTimer % 2000 : ℕ) : ℝ) < 2000 := by exact_mod_cast he
  have h0 : (0 : ℝ) ≤ ((sub32 currentMillis ledFadeTimer % 2000 : ℕ) : ℝ) := Nat.cast_nonneg _
  refine ⟨he, div_nonneg h0 (by norm_num), by rw [div_lt_one (by norm_num)]; exact hc,
    ?_, ?_, ?_, ?_⟩
  · obtain ⟨a, b, c, d⟩ := sinDuty_int_range
      (2 * Real.pi * (((sub32 currentMillis ledFadeTimer % 2000 : ℕ) : ℝ) / 2000))
    refine ⟨?_, a, b, d⟩
    rw [add_zero]
    exact c
  · obtain ⟨a, b, c, d⟩ := sinDuty_int_range
      (2 * Real.pi * (((sub32 currentMillis ledFadeTimer % 2000 : ℕ) : ℝ) / 2000 + 1 / 3))
    exact ⟨c, a, b, d⟩
  · obtain ⟨a, b, c, d⟩ := sinDuty_int_range
      (2 * Real.pi * (((sub32 currentMillis ledFadeTimer % 2000 : ℕ) : ℝ) / 2000 + 2 / 3))
    exact ⟨c, a, b, d⟩
  · intro s i hm ho
    obtain ⟨hr, hg, hy⟩ := loop_fade realFade s i hm ho
    rw [hr, hg, hy]
    exact ⟨(sinDuty_int_range _).2.2.2, (sinDuty_int_range _).2.2.2, (sinDuty_int_range _).2.2.2⟩

theorem C17_fade_ranges_witness :
    (loop realFade (run realFade setupDone [modePressAt 100, modePressAt 300, modePressAt 500])
        (idleAt 3000)).ledRed ≤ 255
      ∧ (loop realFade (run realFade setupDone [modePressAt 100, modePressAt 300, modePressAt 500])
        (idleAt 3000)).ledGreen ≤ 255
      ∧ (loop realFade (run realFade setupDone [modePressAt 100, modePressAt 300, modePressAt 500])
        (idleAt 3000)).ledYellow ≤ 255 :=
  (C17_fade_ranges 3000 520).2.2.2.2.2.2
    (run realFade setupDone [modePressAt 100, modePressAt 300, modePressAt 500]) (idleAt 3000)
    (by decide) (by decide)

/-! ## ALTERNATE off phase at mode entry (C8) -/

/-- The mode-button section after an accepted press is the spin-wait state at
the last poll with the release reading recorded. -/
theorem loopModeButton_hold (cm : Nat) (i : Inputs) (s : State)
    (h : i.modePin = .LOW ∧ sub32 cm s.lastModeButtonPressTime > BUTTON_DEBOUNCE_DELAY) :
    loopModeButton cm i s
      = { modeHoldState s i i.modeHoldPolls with
          lastModeButtonPressTime := wrap32 i.modeReleaseMillis } := by
  unfold loopModeButton modeHoldState
  rw [if_pos h.1, if_pos h.2]

/-- While the mode handler spin-waits after entering ALTERNATE the mode is
ALTERNATE, override and the blink flag are off and the three duties are the
ones the pass started with. -/
theorem modeHoldState_alternate (s : State) (i : Inputs) (k : Nat)
    (hm : nextMode s.activeLightingMode = .MODE_ALTERNATE) :
    (modeHoldState s i k).activeLightingMode = .MODE_ALTERNATE
      ∧ (modeHoldState s i k).isManualControlEnabled = false
      ∧ (modeHoldState s i k).isBlinkOn = false
      ∧ (modeHoldState s i k).ledRed = s.ledRed
      ∧ (modeHoldState s i k).ledGreen = s.ledGreen
      ∧ (modeHoldState s i k).ledYellow = s.ledYellow
      ∧ (modeHoldState s i k).trace
          = s.trace ++ [Event.display "Mode:" "Alternate"] ++ List.replicate k (Event.delay 10) := by
  have hne1 : ¬ (LightingMode.MODE_ALTERNATE = LightingMode.MODE_OFF) := LightingMode.noConfusion
  have hne2 : ¬ (LightingMode.MODE_ALTERNATE = LightingMode.MODE_ALL_ON) :=
    LightingMode.noConfusion
  simp only [modeHoldState, spinWait_eq, updateLightingMode_eq, hm, if_neg hne1, if_neg hne2,
    if_true, modeEntryEvents, and_self]

/-- C8, the code at the failing input: after power-on a short press of the
action button (pressed at clock reading 100, released at 200) turns all LEDs on
under manual override.  The next pass starts at reading 300 and accepts a mode
press held for 150 polls (1.5 s); `millis()` reads 320 inside
`updateLightingMode`.  The handler enters ALTERNATE, clears the override and
the blink flag and writes no LED channel, so at every poll of the spin-wait
the device is in ALTERNATE with override disabled, the blink flag off and all
three duties 255: the off phase that begins at mode entry shows the manual
level.  Only after the release does the renderer of the same pass toggle the
flag on and light the green LED alone. -/
theorem C8_alternate_entry_keeps_leds :
    Reachable realFade (run realFade setupDone [actionHeldAt 100, idleAt 200])
      ∧ modePressAccepted (run realFade setupDone [actionHeldAt 100, idleAt 200])
          (modeHeldAt 300 150)
      ∧ (modeHeldAt 300 150).currentMillis = 300
      ∧ (modeHeldAt 300 150).modeEntryMillis = 320
      ∧ (modeHeldAt 300 150).modeReleaseMillis = 1830
      ∧ (∀ k : Nat,
          (modeHoldState (run realFade setupDone [actionHeldAt 100, idleAt 200])
              (modeHeldAt 300 150) k).activeLightingMode = .MODE_ALTERNATE
            ∧ (modeHoldState (run realFade setupDone [actionHeldAt 100, idleAt 200])
              (modeHeldAt 300 150) k).isManualControlEnabled = false
            ∧ (modeHoldState (run realFade setupDone [actionHeldAt 100, idleAt 200])
              (modeHeldAt 300 150) k).isBlinkOn = false
            ∧ (modeHoldState (run realFade setupDone [actionHeldAt 100, idleAt 200])
              (modeHeldAt 300 150) k).ledRed = 255
            ∧ (modeHoldState (run realFade setupDone [actionHeldAt 100, idleAt 200])
              (modeHeldAt 300 150) k).ledGreen = 255
            ∧ (modeHoldState (run realFade setupDone [actionHeldAt 100, idleAt 200])
              (modeHeldAt 300 150) k).ledYellow = 255
            ∧ (modeHoldState (run realFade setupDone [actionHeldAt 100, idleAt 200])
              (modeHeldAt 300 150) k).trace
              = (run realFade setupDone [actionHeldAt 100, idleAt 200]).trace
                  ++ [Event.display "Mode:" "Alternate"] ++ List.replicate k (Event.delay 10))
      ∧ loopModeButton (wrap32 (modeHeldAt 300 150).currentMillis) (modeHeldAt 300 150)
          (run realFade setupDone [actionHeldAt 100, idleAt 200])
          = { modeHoldState (run realFade setupDone [actionHeldAt 100, idleAt 200])
                (modeHeldAt 300 150) 150 with lastModeButtonPressTime := 1830 }
      ∧ (run realFade setupDone
          [actionHeldAt 100, idleAt 200, modeHeldAt 300 150]).isBlinkOn = true
      ∧ (run realFade setupDone [actionHeldAt 100, idleAt 200, modeHeldAt 300 150]).ledRed = 0
      ∧ (run realFade setupDone
          [actionHeldAt 100, idleAt 200, modeHeldAt 300 150]).ledGreen = 255
      ∧ (run realFade setupDone
          [actionHeldAt 100, idleAt 200, modeHeldAt 300 150]).ledYellow = 0 := by
  have hacc : modePressAccepted (run realFade setupDone [actionHeldAt 100, idleAt 200])
      (modeHeldAt 300 150) := by decide
  have hm : nextMode (run realFade setupDone [actionHeldAt 100, idleAt 200]).activeLightingMode
      = .MODE_ALTERNATE := by decide
  have hr : (run realFade setupDone [actionHeldAt 100, idleAt 200]).ledRed = 255 := by decide
  have hg : (run realFade setupDone [actionHeldAt 100, idleAt 200]).ledGreen = 255 := by decide
  have hy : (run realFade setupDone [actionHeldAt 100, idleAt 200]).ledYellow = 255 := by decide
  refine ⟨Reachable.step _ _ (Reachable.step _ _ (Reachable.boot _ rfl)), hacc, rfl, rfl, rfl,
    fun k => ?_, ?_, by decide, by decide, by decide, by decide⟩
  · obtain ⟨a, b, c, d, e, f, g⟩ := modeHoldState_alternate
      (run realFade setupDone [actionHeldAt 100, idleAt 200]) (modeHeldAt 300 150) k hm
    exact ⟨a, b, c, d.trans hr, e.trans hg, f.trans hy, g⟩
  · exact loopModeButton_hold _ _ _ hacc

end LedController
